import Mathlib

/-!
# socket_server.c : a shallow embedding

The C program is a single-threaded TCP listener (`main` → `initialize`,
`tcp_server` → `tcp_receiver`).  Every function of the source is embedded as a
pure Lean function over an explicit description of what the operating system
answers (`Env`) and it returns the ordered trace of system calls and console
lines it performs (`Run`).

Modelling conventions

* bytes on the wire and in `buff` are natural numbers (`0` is the NUL byte);
* the system calls `socket`, `bind`, `listen`, `accept`, `recv` follow their
  POSIX contract: on success a non-negative value, on failure `-1` and an
  `errno`;
* `buff` is a local array of `BUFSIZ` bytes that the source never initialises
  and never clears: its content before the first `recv` is the parameter
  `Env.buff0`, and `recv` overwrites only the first `recv_msglen` bytes;
* `"%s"` and `strcmp` read a C string, i.e. up to the first NUL byte; when the
  array holds no NUL byte the read leaves the array and the run is `undefined`;
* `accept` blocks for ever once the finite list of connections `Env.conns` is
  used up (`Exit.blocked`);
* `errmsg` is the array `char errmsg[BUFSIZ]` of `main`: the model keeps the
  text written into it, and a `sprintf` whose text and closing NUL need more
  than `BUFSIZ` bytes writes behind the array and is `undefined`; this is
  checked where the text holds `argv[0]`, whose length the caller chooses,
  while the texts of `strerror` are taken to fit;
* `int` has 32 bits and `unsigned short` 16; `argv` is the list of argument
  strings and `argc` its length when `main` is called.

The definitions come first (the program, then the inputs and vocabulary of
the statements), the proofs after them.
-/

namespace SocketServer

/-! ## The operating system as seen by the program -/

/-- Result of a system call that returns `0` or `-1` (`bind`, `listen`). -/
inductive SysResult where
  | ok
  | fail (errno : Nat)
  deriving DecidableEq, Repr

/-- The `int` handed back to the C caller. -/
def SysResult.rc : SysResult → Int
  | .ok => 0
  | .fail _ => -1

/-- Value of `errno` after the call (only read after a failure). -/
def SysResult.errno : SysResult → Nat
  | .ok => 0
  | .fail e => e

/-- Result of a system call that returns a descriptor or `-1` (`socket`, `accept`). -/
inductive FdResult where
  | ok (fd : Nat)
  | fail (errno : Nat)
  deriving DecidableEq, Repr

/-- The `int` handed back to the C caller. -/
def FdResult.rc : FdResult → Int
  | .ok fd => (fd : Int)
  | .fail _ => -1

/-- Value of `errno` after the call (only read after a failure). -/
def FdResult.errno : FdResult → Nat
  | .ok _ => 0
  | .fail e => e

/-- What `recv` finds on an accepted connection: the bytes the peer has sent
(of which `recv` copies at most the requested number), or a failure. -/
inductive RecvResult where
  | data (pending : List Nat)
  | fail (errno : Nat)
  deriving DecidableEq, Repr

/-- One inbound connection, as the loop meets it. -/
structure Conn where
  accept : FdResult
  peer : String
  recv : RecvResult
  deriving DecidableEq, Repr

/-- Everything outside the program text: the macro `BUFSIZ` of `<stdio.h>`,
the table of `strerror`, what `socket`, `bind` and `listen` answer, the
connections that arrive in their order, and what the uninitialised arrays
`buff` (in `tcp_receiver`) and `errmsg` (in `main`) hold at first. -/
structure Env where
  BUFSIZ : Nat
  strerror : Nat → String
  socket : FdResult
  bind : SysResult
  listen : SysResult
  conns : List Conn
  buff0 : List Nat
  errmsg0 : String

/-- Observable steps of a run, in program order. -/
inductive Event where
  | sys_socket
  | sys_bind (sd : Int) (port : Nat)
  | sys_listen (sd : Int) (backlog : Nat)
  | sys_accept (sd : Int)
  | sys_recv (sd : Int) (len : Nat)
  | sys_close (sd : Int)
  | out_client (addr : String)
  | out_message (text : List Nat)
  | err_line (text : String)
  deriving DecidableEq, Repr

/-- How a function call ends. -/
inductive Exit where
  | returned (rc : Int)
  | blocked
  | undefined
  deriving DecidableEq, Repr

/-- Result of running a function: how it ended, the text left in `errmsg`
and what it did. -/
structure Run where
  exit : Exit
  errmsg : String
  trace : List Event
  deriving DecidableEq, Repr

/-- Put events in front of a run's trace. -/
def Run.after (evs : List Event) (r : Run) : Run :=
  { r with trace := evs ++ r.trace }

/-! ## C library -/

/-- The bytes of the string literal `"terminate"` (without its NUL). -/
def terminate : List Nat := [116, 101, 114, 109, 105, 110, 97, 116, 101]

/-- `strcmp(s1, s2)` on arrays of bytes: walk both while the bytes agree and
are not NUL.  `none` when an array ends before the comparison is decided
(a read outside the array). -/
def strcmp : List Nat → List Nat → Option Int
  | a :: s1, b :: s2 =>
    if a = b then (if a = 0 then some 0 else strcmp s1 s2)
    else some ((a : Int) - (b : Int))
  | _, _ => none

/-- The bytes in front of the first NUL byte (all of them when there is none). -/
def before_nul (bytes : List Nat) : List Nat :=
  bytes.takeWhile (fun b => b ≠ 0)

/-- What `"%s"` prints for an array of bytes: the bytes before the first NUL,
`none` when the array holds no NUL (a read outside the array). -/
def cstring (buf : List Nat) : Option (List Nat) :=
  if 0 ∈ buf then some (before_nul buf) else none

/-- The text `sprintf(errmsg, "(line:%d) %s", __LINE__, strerror(errno))` writes. -/
def fmt_error (env : Env) (line : Nat) (errno : Nat) : String :=
  "(line:" ++ toString line ++ ") " ++ env.strerror errno

/-- Bytes `recv(fd, buff, len, 0)` copies to the start of `buff`. -/
def recv_bytes (len : Nat) (pending : List Nat) : List Nat :=
  pending.take len

/-- Content of `buff` after `recv` stored `got` at its start: the rest of the
array keeps what it held. -/
def recv_into (buff got : List Nat) : List Nat :=
  got ++ buff.drop got.length

/-! ## tcp_receiver (lines 29–71) -/

/-- The `while(exit_flag)` loop of `tcp_receiver`, one connection per turn.
Arguments after the connections still to come: `exit_flag`, the text in
`errmsg`, the content of `buff`. -/
def tcp_receiver_loop (env : Env) (serv_sock : Int) :
    List Conn → Int → String → List Nat → Run
  | [], exit_flag, errmsg, _ =>
    -- line 39: while(exit_flag)
    if exit_flag = 0 then
      -- line 70: return( 0 )
      { exit := .returned 0, errmsg := errmsg, trace := [] }
    else
      -- line 44: accept never returns, nobody connects any more
      { exit := .blocked, errmsg := errmsg, trace := [.sys_accept serv_sock] }
  | c :: rest, exit_flag, errmsg, buff =>
    -- line 39: while(exit_flag)
    if exit_flag = 0 then
      -- line 70: return( 0 )
      { exit := .returned 0, errmsg := errmsg, trace := [] }
    else
      -- line 44: clnt_sock = accept(serv_sock, ...)
      let clnt_sock := c.accept.rc
      -- lines 46-49: if(clnt_sock < 0) sprintf(errmsg, ...); return(-1)
      if clnt_sock < 0 then
        { exit := .returned (-1), errmsg := fmt_error env 47 c.accept.errno,
          trace := [.sys_accept serv_sock] }
      else
        -- line 52: the client line; line 55: recv(clnt_sock, buff, BUFSIZ, 0)
        match c.recv with
        | .fail e =>
          -- lines 56-59: if(recv_msglen < 0) sprintf(errmsg, ...); return(-1)
          { exit := .returned (-1), errmsg := fmt_error env 57 e,
            trace := [.sys_accept serv_sock, .out_client c.peer,
                      .sys_recv clnt_sock env.BUFSIZ] }
        | .data pending =>
          let buff := recv_into buff (recv_bytes env.BUFSIZ pending)
          -- line 62: fprintf(stdout, "message: %s\n", buff)
          match cstring buff with
          | none =>
            { exit := .undefined, errmsg := errmsg,
              trace := [.sys_accept serv_sock, .out_client c.peer,
                        .sys_recv clnt_sock env.BUFSIZ] }
          | some text =>
            -- lines 65-67: if(strcmp(buff, "terminate") == 0) exit_flag = 0
            match strcmp buff (terminate ++ [0]) with
            | none =>
              { exit := .undefined, errmsg := errmsg,
                trace := [.sys_accept serv_sock, .out_client c.peer,
                          .sys_recv clnt_sock env.BUFSIZ, .out_message text] }
            | some d =>
              Run.after [.sys_accept serv_sock, .out_client c.peer,
                         .sys_recv clnt_sock env.BUFSIZ, .out_message text]
                (tcp_receiver_loop env serv_sock rest (if d = 0 then 0 else exit_flag)
                  errmsg buff)

/-- `tcp_receiver(serv_sock, errmsg)`: `exit_flag = 1`, `buff` uninitialised. -/
def tcp_receiver (env : Env) (serv_sock : Int) (errmsg : String) : Run :=
  tcp_receiver_loop env serv_sock env.conns 1 errmsg env.buff0

/-! ## tcp_server (lines 79–121) -/

/-- Backlog handed to `listen`. -/
def MAXPENDING : Nat := 5

/-- The C type `struct server_info`: `sv_port` is an `unsigned short`. -/
structure sv_info_t where
  sv_port : Nat
  deriving DecidableEq, Repr

/-- The label `close_exit:` of `tcp_server`: `if(sd != 0) close(sd); return(rc);`
after the steps `done`. -/
def close_exit (sd rc : Int) (errmsg : String) (done : List Event) : Run :=
  { exit := .returned rc, errmsg := errmsg,
    trace := done ++ (if sd ≠ 0 then [.sys_close sd] else []) }

/-- `tcp_server(info, errmsg)`. -/
def tcp_server (env : Env) (info : sv_info_t) (errmsg : String) : Run :=
  -- lines 87-91: sd = socket(...); if(sd < 0) sprintf(errmsg, ...); return(-1)
  let sd := env.socket.rc
  if sd < 0 then
    { exit := .returned (-1), errmsg := fmt_error env 89 env.socket.errno,
      trace := [.sys_socket] }
  else
    -- lines 100-104: rc = bind(...); if(rc != 0) sprintf(errmsg, ...); goto close_exit
    let rc := env.bind.rc
    if rc ≠ 0 then
      close_exit sd rc (fmt_error env 102 env.bind.errno)
        [.sys_socket, .sys_bind sd info.sv_port]
    else
      -- lines 107-111: rc = listen(sd, MAXPENDING); if(rc < 0) ...; goto close_exit
      let rc := env.listen.rc
      if rc < 0 then
        close_exit sd rc (fmt_error env 109 env.listen.errno)
          [.sys_socket, .sys_bind sd info.sv_port, .sys_listen sd MAXPENDING]
      else
        -- lines 114-115: rc = tcp_receiver(sd, errmsg); then close_exit either way
        let r := tcp_receiver env sd errmsg
        match r.exit with
        | .returned rc =>
          close_exit sd rc r.errmsg
            ([.sys_socket, .sys_bind sd info.sv_port, .sys_listen sd MAXPENDING] ++ r.trace)
        | .blocked =>
          Run.after [.sys_socket, .sys_bind sd info.sv_port, .sys_listen sd MAXPENDING] r
        | .undefined =>
          Run.after [.sys_socket, .sys_bind sd info.sv_port, .sys_listen sd MAXPENDING] r

/-! ## initialize (lines 131–143) -/

/-- Largest `int` (32 bits). -/
def INT_MAX : Int := 2147483647

/-- Smallest `int` (32 bits). -/
def INT_MIN : Int := -2147483648

/-- The C locale's `isspace`: space, `\t`, `\n`, `\v`, `\f`, `\r`. -/
def isspace (c : Char) : Bool :=
  c.toNat = 32 || (9 ≤ c.toNat && c.toNat ≤ 13)

/-- The C locale's `isdigit`. -/
def isdigit (c : Char) : Bool :=
  48 ≤ c.toNat && c.toNat ≤ 57

/-- Value of the longest run of decimal digits at the start of the text,
continuing from `acc`; `acc` when there is none. -/
def decimal_value : List Char → Nat → Nat
  | [], acc => acc
  | c :: cs, acc =>
    if isdigit c then decimal_value cs (10 * acc + (c.toNat - 48)) else acc

/-- Remove one leading `+` or `-`; the boolean tells whether it was `-`. -/
def take_sign : List Char → Bool × List Char
  | [] => (false, [])
  | c :: cs =>
    if c.toNat = 45 then (true, cs)
    else if c.toNat = 43 then (false, cs)
    else (false, c :: cs)

/-- The number `strtol(s, NULL, 10)` reads: optional white space, optional
sign, decimal digits; `0` when no digit follows. -/
def leading_decimal (s : List Char) : Int :=
  let body := take_sign (s.dropWhile isspace)
  if body.1 then - (decimal_value body.2 0 : Int) else (decimal_value body.2 0 : Int)

/-- Whether, after optional white space and an optional sign, the text starts
with a decimal digit. -/
def begins_with_number (s : List Char) : Bool :=
  match (take_sign (s.dropWhile isspace)).2 with
  | [] => false
  | c :: _ => isdigit c

/-- `atoi(s)`: the leading decimal number when it is an `int`.  For other
values C leaves the result open; `overflow` is what the library at hand
returns then. -/
def atoi (overflow : Int → Int) (s : String) : Int :=
  let n := leading_decimal s.toList
  if INT_MIN ≤ n ∧ n ≤ INT_MAX then n else overflow n

/-- Conversion of an `int` to `unsigned short` (16 bits): reduction modulo 65536. -/
def to_ushort (x : Int) : Nat :=
  (x % 65536).toNat

/-- Whether `sprintf` of `text` into a `char` array of `cap` bytes stays
inside the array: the bytes of the text and the closing NUL. -/
def fits (cap : Nat) (text : String) : Bool :=
  decide (text.utf8ByteSize + 1 ≤ cap)

/-- What `initialize` hands back: its return value (or that the call is
undefined), the server information and the text in `errmsg`. -/
structure InitResult where
  exit : Exit
  info : sv_info_t
  errmsg : String
  deriving DecidableEq, Repr

/-- `initialize(argc, argv, info, errmsg)`; the name carries a suffix because
`initialize` is a reserved word of Lean.  `bufsiz` is the size of the array
`errmsg` points to (`char errmsg[BUFSIZ]` in `main`).  `argv[i]` is the `i`-th
entry of the list, a null pointer when the list is shorter; `"%s"` and `atoi`
on a null pointer are undefined, and so is a `sprintf` that does not fit. -/
def initialize_sv (bufsiz : Nat) (overflow : Int → Int) (argc : Int) (argv : List String)
    (info : sv_info_t) (errmsg : String) : InitResult :=
  -- lines 134-137: if(argc != 2) sprintf(errmsg, "Usage: %s <port>\n", argv[0]); return(-1)
  if argc ≠ 2 then
    match argv.get? 0 with
    | some prog =>
      if fits bufsiz ("Usage: " ++ prog ++ " <port>\n") then
        { exit := .returned (-1), info := info,
          errmsg := "Usage: " ++ prog ++ " <port>\n" }
      else
        -- the text does not fit into errmsg[BUFSIZ]: sprintf writes behind the array
        { exit := .undefined, info := info, errmsg := errmsg }
    | none => { exit := .undefined, info := info, errmsg := errmsg }
  else
    -- lines 139-142: memset(info, 0, ...); info->sv_port = atoi(argv[1]); return(0)
    match argv.get? 1 with
    | some port =>
      { exit := .returned 0, info := { sv_port := to_ushort (atoi overflow port) },
        errmsg := errmsg }
    | none => { exit := .undefined, info := { sv_port := 0 }, errmsg := errmsg }

/-! ## main (lines 149–169) -/

/-- The line `fprintf(stderr, "Error: %s\n", errmsg)`. -/
def error_line (errmsg : String) : Event :=
  .err_line ("Error: " ++ errmsg ++ "\n")

/-- `main(argc, argv)` with `argc` the length of `argv`; `errmsg` is its array
of `BUFSIZ` bytes. -/
def main (env : Env) (overflow : Int → Int) (argv : List String) : Run :=
  -- lines 153-156: info = {0}; rc = initialize(argc, argv, &info, errmsg)
  let i := initialize_sv env.BUFSIZ overflow (argv.length : Int) argv { sv_port := 0 }
    env.errmsg0
  match i.exit with
  | .returned rc =>
    -- lines 157-160: if(rc != 0) fprintf(stderr, ...); return(-1)
    if rc ≠ 0 then
      { exit := .returned (-1), errmsg := i.errmsg, trace := [error_line i.errmsg] }
    else
      -- line 162: rc = tcp_server(&info, errmsg)
      let r := tcp_server env i.info i.errmsg
      match r.exit with
      | .returned rc =>
        -- lines 163-168: if(rc != 0) fprintf(stderr, ...); return(-1); else return(0)
        if rc ≠ 0 then
          { exit := .returned (-1), errmsg := r.errmsg,
            trace := r.trace ++ [error_line r.errmsg] }
        else
          { exit := .returned 0, errmsg := r.errmsg, trace := r.trace }
      | .blocked => r
      | .undefined => r
  | .blocked => { exit := .blocked, errmsg := i.errmsg, trace := [] }
  | .undefined => { exit := .undefined, errmsg := i.errmsg, trace := [] }

/-! ## Concrete inputs used below -/

/-- A `strerror` table: a few Linux texts. -/
def linux_strerror (e : Nat) : String :=
  if e = 98 then "Address already in use"
  else if e = 24 then "Too many open files"
  else if e = 104 then "Connection reset by peer"
  else "Unknown error"

/-- A connection from the local host on descriptor `fd` whose peer sent `bytes`. -/
def local_conn (fd : Nat) (bytes : List Nat) : Conn :=
  { accept := .ok fd, peer := "127.0.0.1", recv := .data bytes }

/-- A machine with `BUFSIZ = 8192`; the caller gives the results of `socket`,
`bind` and `listen`, the connections that arrive and what `buff` holds at
first. -/
def linux_machine (socket : FdResult) (bind listen : SysResult) (conns : List Conn)
    (buff0 : List Nat) : Env :=
  { BUFSIZ := 8192, strerror := linux_strerror, socket := socket, bind := bind,
    listen := listen, conns := conns, buff0 := buff0, errmsg0 := "" }

/-- That machine when `buff` starts zeroed. -/
def linux_env_with (socket : FdResult) (bind listen : SysResult) (conns : List Conn) : Env :=
  linux_machine socket bind listen conns (List.replicate 8192 0)

/-- That machine when `socket` returns `sd` and `bind` and `listen` succeed. -/
def linux_env (sd : Nat) (conns : List Conn) : Env :=
  linux_env_with (.ok sd) .ok .ok conns

/-- The bytes `hello world!`. -/
def hello_world : List Nat := [104, 101, 108, 108, 111, 32, 119, 111, 114, 108, 100, 33]

/-- The bytes `hello`. -/
def hello : List Nat := [104, 101, 108, 108, 111]

/-- The byte `A`, 8200 times. -/
def padding : List Nat := List.replicate 8200 65

/-- The bytes `hi`, a NUL, then 8200 times `A`: more than `BUFSIZ` bytes. -/
def long_message : List Nat := 104 :: 105 :: 0 :: padding

/-- A program name of 9000 bytes: the letter `A`, 9000 times. -/
def long_name : String :=
  String.mk (List.replicate 9000 (Char.ofNat 65))

/-! ## Vocabulary of the statements -/

/-- A connection that the loop services without stopping, whatever `buff`
held: it is accepted, and the bytes received hold a NUL byte in front of
which the text is not `terminate`. -/
def serviced_without_stop (bufsiz : Nat) (c : Conn) : Bool :=
  match c.accept, c.recv with
  | .ok _, .data pending =>
    decide (0 ∈ recv_bytes bufsiz pending) &&
      decide (before_nul (recv_bytes bufsiz pending) ≠ terminate)
  | _, _ => false

/-! ## Auxiliary facts: C strings and `recv` -/

theorem before_nul_append_of_nul (got tl : List Nat) (h : 0 ∈ got) :
    before_nul (got ++ tl) = before_nul got := by
  unfold before_nul
  induction got with
  | nil => simp at h
  | cons a g ih =>
    by_cases ha : a = 0
    · simp [ha]
    · have hg : 0 ∈ g := by
        rcases List.mem_cons.mp h with h0 | h0
        · exact absurd h0.symm ha
        · exact h0
      simpa [List.takeWhile_cons, ha] using ih hg

theorem cstring_append_of_nul (got tl : List Nat) (h : 0 ∈ got) :
    cstring (got ++ tl) = some (before_nul got) := by
  unfold cstring
  rw [if_pos (List.mem_append.mpr (Or.inl h)), before_nul_append_of_nul got tl h]

theorem strcmp_append_of_nul (got tl : List Nat) (h : 0 ∈ got) :
    ∀ lit : List Nat, 0 ∉ lit →
      ∃ d : Int, strcmp (got ++ tl) (lit ++ [0]) = some d ∧
        (d = 0 ↔ before_nul got = lit) := by
  unfold before_nul
  induction got with
  | nil => simp at h
  | cons a g ih =>
    intro lit hlit
    cases lit with
    | nil =>
      by_cases ha : a = 0
      · exact ⟨0, by simp [strcmp, ha], by simp [ha]⟩
      · refine ⟨(a : Int) - 0, by simp [strcmp, ha], ?_⟩
        simp [List.takeWhile_cons, ha]
    | cons b l =>
      have hb : b ≠ 0 := fun hb0 => hlit (by simp [hb0])
      have hl : 0 ∉ l := fun hl0 => hlit (List.mem_cons_of_mem _ hl0)
      by_cases hab : a = b
      · subst hab
        have hg : 0 ∈ g := by
          rcases List.mem_cons.mp h with h0 | h0
          · exact absurd h0.symm hb
          · exact h0
        obtain ⟨d, hd, hiff⟩ := ih hg l hl
        refine ⟨d, ?_, ?_⟩
        · simpa [strcmp, hb] using hd
        · simpa [List.takeWhile_cons, hb] using hiff
      · refine ⟨(a : Int) - (b : Int), by simp [strcmp, hab], ?_⟩
        constructor
        · intro hd
          exact absurd (by omega : a = b) hab
        · intro htw
          exfalso
          by_cases ha : a = 0
          · simp [List.takeWhile_cons, ha] at htw
          · simp [List.takeWhile_cons, ha] at htw
            exact hab htw.1

theorem strcmp_of_nul (b : List Nat) (h : 0 ∈ b) :
    ∃ d : Int, strcmp b (terminate ++ [0]) = some d ∧ (d = 0 ↔ before_nul b = terminate) := by
  have := strcmp_append_of_nul b [] h terminate (by decide)
  simpa using this

theorem cstring_of_nul (b : List Nat) (h : 0 ∈ b) : cstring b = some (before_nul b) := by
  simp [cstring, h]

theorem cstring_of_no_nul (b : List Nat) (h : 0 ∉ b) : cstring b = none := by
  simp [cstring, h]

theorem recv_terminate_nul (n : Nat) (more : List Nat) (h : 10 ≤ n) :
    recv_bytes n (terminate ++ 0 :: more) = terminate ++ 0 :: more.take (n - 10) := by
  obtain ⟨k, rfl⟩ : ∃ k, n = k + 10 := ⟨n - 10, by omega⟩
  rw [Nat.add_sub_cancel]
  rfl

theorem padding_length : padding.length = 8200 := by
  simp only [padding, List.length_replicate]

theorem recv_long_message :
    recv_bytes 8192 long_message = 104 :: 105 :: 0 :: List.take 8189 padding :=
  rfl

/-! ## Auxiliary facts: `atoi` -/

theorem leading_decimal_of_no_number (s : List Char) (h : begins_with_number s = false) :
    leading_decimal s = 0 := by
  unfold begins_with_number at h
  unfold leading_decimal
  cases hb : (take_sign (s.dropWhile isspace)).2 with
  | nil => simp [hb, decimal_value]
  | cons c cs =>
    rw [hb] at h
    simp only at h
    simp [hb, decimal_value, h]

theorem digitChar_is_digit (m : Nat) (h : m < 10) :
    isdigit (Nat.digitChar m) = true ∧ (Nat.digitChar m).toNat - 48 = m := by
  interval_cases m <;> decide

theorem decimal_value_toDigitsCore (fuel : Nat) :
    ∀ (n : Nat) (ds : List Char), n < fuel →
      decimal_value (Nat.toDigitsCore 10 fuel n ds) 0 = decimal_value ds n := by
  induction fuel with
  | zero => intro n ds h; omega
  | succ f ih =>
    intro n ds h
    obtain ⟨hd, hv⟩ := digitChar_is_digit (n % 10) (Nat.mod_lt _ (by decide))
    rw [Nat.toDigitsCore]
    by_cases h0 : n / 10 = 0
    · rw [if_pos h0]
      have hn : n % 10 = n := Nat.mod_eq_of_lt (by omega)
      rw [hn] at hd hv
      simp [decimal_value, hd, hv, hn]
    · rw [if_neg h0, ih (n / 10) _ (by omega)]
      have hn : 10 * (n / 10) + n % 10 = n := Nat.div_add_mod n 10
      simp [decimal_value, hd, hv, hn]

theorem toDigitsCore_head (fuel : Nat) :
    ∀ (n : Nat) (ds : List Char), 0 < fuel →
      ∃ c cs, Nat.toDigitsCore 10 fuel n ds = c :: cs ∧ isdigit c = true := by
  induction fuel with
  | zero => intro n ds h; omega
  | succ f ih =>
    intro n ds _
    obtain ⟨hd, _⟩ := digitChar_is_digit (n % 10) (Nat.mod_lt _ (by decide))
    rw [Nat.toDigitsCore]
    by_cases h0 : n / 10 = 0
    · rw [if_pos h0]
      exact ⟨_, _, rfl, hd⟩
    · rw [if_neg h0]
      cases f with
      | zero => exact ⟨_, _, rfl, hd⟩
      | succ g => exact ih _ _ (by omega)

theorem leading_decimal_of_digit (c : Char) (cs : List Char) (h : isdigit c = true) :
    leading_decimal (c :: cs) = (decimal_value (c :: cs) 0 : Int) := by
  have hc : 48 ≤ c.toNat ∧ c.toNat ≤ 57 := by
    simpa [isdigit] using h
  have hsp : isspace c = false := by
    simp [isspace]
    omega
  have h45 : ¬ c.toNat = 45 := by omega
  have h43 : ¬ c.toNat = 43 := by omega
  simp [leading_decimal, List.dropWhile_cons, hsp, take_sign, h45, h43]

theorem leading_decimal_toString (n : Nat) : leading_decimal (toString n).toList = (n : Int) := by
  have hlist : (toString n).toList = Nat.toDigitsCore 10 (n + 1) n [] := rfl
  obtain ⟨c, cs, hcs, hc⟩ := toDigitsCore_head (n + 1) n [] (by omega)
  rw [hlist, hcs, leading_decimal_of_digit c cs hc, ← hcs,
    decimal_value_toDigitsCore (n + 1) n [] (by omega)]
  simp [decimal_value]

theorem leading_decimal_minus_toString (n : Nat) :
    leading_decimal ("-" ++ toString n).toList = -(n : Int) := by
  have hlist : ("-" ++ toString n).toList = '-' :: Nat.toDigitsCore 10 (n + 1) n [] := rfl
  rw [hlist]
  have hv := decimal_value_toDigitsCore (n + 1) n [] (by omega)
  have hsp : isspace '-' = false := by decide
  simp [leading_decimal, List.dropWhile_cons, hsp, take_sign, hv, decimal_value]

/-! ## Auxiliary facts: the texts written into `errmsg` -/

theorem fmt_error_text (env : Env) (e : Nat) :
    fmt_error env 47 e = "(line:47) " ++ env.strerror e ∧
    fmt_error env 57 e = "(line:57) " ++ env.strerror e ∧
    fmt_error env 89 e = "(line:89) " ++ env.strerror e ∧
    fmt_error env 102 e = "(line:102) " ++ env.strerror e ∧
    fmt_error env 109 e = "(line:109) " ++ env.strerror e :=
  ⟨rfl, rfl, rfl, rfl, rfl⟩

theorem byte_size_append (s t : String) :
    (s ++ t).utf8ByteSize = s.utf8ByteSize + t.utf8ByteSize := by
  cases s with
  | mk a =>
    cases t with
    | mk b =>
      show String.utf8ByteSize ⟨a ++ b⟩ = _
      simp [String.utf8ByteSize_mk, String.utf8Len_append]

theorem usage_text_size (prog : String) :
    ("Usage: " ++ prog ++ " <port>\n").utf8ByteSize = prog.utf8ByteSize + 15 := by
  rw [byte_size_append, byte_size_append]
  have h1 : "Usage: ".utf8ByteSize = 7 := by decide
  have h2 : " <port>\n".utf8ByteSize = 8 := by decide
  omega

theorem fits_usage_text (bufsiz : Nat) (prog : String) :
    fits bufsiz ("Usage: " ++ prog ++ " <port>\n") = decide (prog.utf8ByteSize + 16 ≤ bufsiz) := by
  unfold fits
  rw [usage_text_size]

theorem replicate_byte_size (n : Nat) :
    (String.mk (List.replicate n (Char.ofNat 65))).utf8ByteSize = n := by
  induction n with
  | zero => rfl
  | succ k ih =>
    rw [List.replicate_succ]
    simp only [String.utf8ByteSize_mk, String.utf8Len_cons] at ih ⊢
    rw [ih]
    have h : Char.utf8Size (Char.ofNat 65) = 1 := by decide
    omega

theorem long_name_size : long_name.utf8ByteSize = 9000 :=
  replicate_byte_size 9000

/-! ## Auxiliary facts: the loop -/

theorem loop_flag_zero (env : Env) (sd : Int) (conns : List Conn) (errmsg : String)
    (buff : List Nat) :
    tcp_receiver_loop env sd conns 0 errmsg buff =
      { exit := .returned 0, errmsg := errmsg, trace := [] } := by
  cases conns <;> simp [tcp_receiver_loop]

theorem loop_starts_with_accept (env : Env) (sd : Int) (conns : List Conn)
    (errmsg : String) (buff : List Nat) :
    (tcp_receiver_loop env sd conns 1 errmsg buff).trace.head? = some (.sys_accept sd) := by
  cases conns with
  | nil => simp [tcp_receiver_loop]
  | cons c rest =>
    rw [tcp_receiver_loop]
    simp only [one_ne_zero, if_false]
    split
    · rfl
    · split
      · rfl
      · split
        · rfl
        · split
          · rfl
          · rfl

/-- One turn of the loop on a connection that is accepted and read: when
`buff` holds a NUL byte after the receive, the four steps of the turn with
the C string in `buff` on the `message:` line, then the loop goes on with the
flag the comparison left; when it holds none, the read for the `message:`
line leaves the array. -/
theorem loop_turn (env : Env) (sd : Int) (c : Conn) (rest : List Conn)
    (errmsg : String) (buff : List Nat) (fd : Nat) (pending : List Nat)
    (hacc : c.accept = .ok fd) (hrecv : c.recv = .data pending) :
    (0 ∈ recv_into buff (recv_bytes env.BUFSIZ pending) →
      tcp_receiver_loop env sd (c :: rest) 1 errmsg buff =
        Run.after [.sys_accept sd, .out_client c.peer, .sys_recv fd env.BUFSIZ,
                   .out_message (before_nul (recv_into buff (recv_bytes env.BUFSIZ pending)))]
          (tcp_receiver_loop env sd rest
            (if before_nul (recv_into buff (recv_bytes env.BUFSIZ pending)) = terminate
              then 0 else 1)
            errmsg (recv_into buff (recv_bytes env.BUFSIZ pending)))) ∧
    (0 ∉ recv_into buff (recv_bytes env.BUFSIZ pending) →
      tcp_receiver_loop env sd (c :: rest) 1 errmsg buff =
        { exit := .undefined, errmsg := errmsg,
          trace := [.sys_accept sd, .out_client c.peer, .sys_recv fd env.BUFSIZ] }) := by
  have hfd : ¬ ((fd : Int) < 0) := by omega
  constructor
  · intro hnul
    obtain ⟨d, hd, hiff⟩ := strcmp_of_nul _ hnul
    rw [tcp_receiver_loop]
    simp only [one_ne_zero, if_false, hacc, hrecv, FdResult.rc, cstring_of_nul _ hnul, hd,
      hfd]
    by_cases h0 : d = 0
    · simp [h0, hiff.mp h0]
    · have hne : before_nul (recv_into buff (recv_bytes env.BUFSIZ pending)) ≠ terminate :=
        fun he => h0 (hiff.mpr he)
      simp [h0, hne]
  · intro hnul
    rw [tcp_receiver_loop]
    simp only [one_ne_zero, if_false, hacc, hrecv, FdResult.rc, cstring_of_no_nul _ hnul, hfd]

/-- The same turn when the received bytes themselves hold a NUL byte: what
`buff` held before plays no part. -/
theorem loop_step_of_nul (env : Env) (sd : Int) (c : Conn) (rest : List Conn)
    (errmsg : String) (buff : List Nat) (fd : Nat) (pending : List Nat)
    (hacc : c.accept = .ok fd) (hrecv : c.recv = .data pending)
    (hnul : 0 ∈ recv_bytes env.BUFSIZ pending) :
    tcp_receiver_loop env sd (c :: rest) 1 errmsg buff =
      Run.after [.sys_accept sd, .out_client c.peer, .sys_recv fd env.BUFSIZ,
                 .out_message (before_nul (recv_bytes env.BUFSIZ pending))]
        (tcp_receiver_loop env sd rest
          (if before_nul (recv_bytes env.BUFSIZ pending) = terminate then 0 else 1)
          errmsg (recv_into buff (recv_bytes env.BUFSIZ pending))) := by
  have hmem : 0 ∈ recv_into buff (recv_bytes env.BUFSIZ pending) :=
    List.mem_append.mpr (Or.inl hnul)
  have h := (loop_turn env sd c rest errmsg buff fd pending hacc hrecv).1 hmem
  have hb : before_nul (recv_into buff (recv_bytes env.BUFSIZ pending)) =
      before_nul (recv_bytes env.BUFSIZ pending) :=
    before_nul_append_of_nul _ _ hnul
  rw [hb] at h
  exact h

/-- A turn in which the bytes `terminate`, a NUL byte and anything after them
are received ends the loop with return value `0`, whatever `buff` and
`errmsg` held before, that is after any number of earlier messages. -/
theorem loop_stops_on_terminate_nul (env : Env) (sd : Int) (c : Conn)
    (rest : List Conn) (errmsg : String) (buff : List Nat) (fd : Nat) (more : List Nat)
    (hsize : 10 ≤ env.BUFSIZ) (hacc : c.accept = .ok fd)
    (hrecv : c.recv = .data (terminate ++ 0 :: more)) :
    tcp_receiver_loop env sd (c :: rest) 1 errmsg buff =
      { exit := .returned 0, errmsg := errmsg,
        trace := [.sys_accept sd, .out_client c.peer, .sys_recv fd env.BUFSIZ,
                  .out_message terminate] } := by
  have hgot := recv_terminate_nul env.BUFSIZ more hsize
  have hnul : 0 ∈ recv_bytes env.BUFSIZ (terminate ++ 0 :: more) := by
    rw [hgot]; simp
  have htext : before_nul (recv_bytes env.BUFSIZ (terminate ++ 0 :: more)) = terminate := by
    rw [hgot]; simp [before_nul, terminate]
  have h := loop_step_of_nul env sd c rest errmsg buff fd _ hacc hrecv hnul
  rw [htext, if_pos rfl, loop_flag_zero] at h
  rw [h]
  rfl

theorem loop_failure (env : Env) (sd : Int) (c : Conn) (rest : List Conn)
    (errmsg : String) (buff : List Nat) :
    (∀ e, c.accept = .fail e →
      tcp_receiver_loop env sd (c :: rest) 1 errmsg buff =
        { exit := .returned (-1), errmsg := fmt_error env 47 e,
          trace := [.sys_accept sd] }) ∧
    (∀ fd e, c.accept = .ok fd → c.recv = .fail e →
      tcp_receiver_loop env sd (c :: rest) 1 errmsg buff =
        { exit := .returned (-1), errmsg := fmt_error env 57 e,
          trace := [.sys_accept sd, .out_client c.peer, .sys_recv fd env.BUFSIZ] }) := by
  constructor
  · intro e hacc
    rw [tcp_receiver_loop]
    simp [hacc, FdResult.rc, FdResult.errno]
  · intro fd e hacc hrecv
    have hfd : ¬ ((fd : Int) < 0) := by omega
    rw [tcp_receiver_loop]
    simp [hacc, hrecv, FdResult.rc, hfd]

theorem loop_after_serviced (env : Env) (sd : Int) (pre : List Conn)
    (hpre : ∀ c ∈ pre, serviced_without_stop env.BUFSIZ c = true) (tail : List Conn)
    (errmsg : String) :
    ∀ buff : List Nat, ∃ (evs : List Event) (buff2 : List Nat),
      tcp_receiver_loop env sd (pre ++ tail) 1 errmsg buff =
        Run.after evs (tcp_receiver_loop env sd tail 1 errmsg buff2) := by
  induction pre with
  | nil =>
    intro buff
    exact ⟨[], buff, by simp [Run.after]⟩
  | cons c pre ih =>
    intro buff
    have hc := hpre c (List.mem_cons_self _ _)
    unfold serviced_without_stop at hc
    cases hacc : c.accept with
    | fail e => simp [hacc] at hc
    | ok fd =>
      cases hrecv : c.recv with
      | fail e => simp [hacc, hrecv] at hc
      | data pending =>
        simp only [hacc, hrecv, Bool.and_eq_true, decide_eq_true_eq] at hc
        obtain ⟨evs, buff2, h⟩ :=
          ih (fun x hx => hpre x (List.mem_cons_of_mem _ hx))
            (recv_into buff (recv_bytes env.BUFSIZ pending))
        have hstep := loop_step_of_nul env sd c (pre ++ tail) errmsg buff fd pending hacc
          hrecv hc.1
        rw [if_neg hc.2, h] at hstep
        refine ⟨[.sys_accept sd, .out_client c.peer, .sys_recv fd env.BUFSIZ,
          .out_message (before_nul (recv_bytes env.BUFSIZ pending))] ++ evs, buff2, ?_⟩
        rw [List.cons_append, hstep]
        simp [Run.after]

theorem loop_never_closes (env : Env) (sd x : Int) (conns : List Conn) :
    ∀ (flag : Int) (errmsg : String) (buff : List Nat),
      Event.sys_close x ∉ (tcp_receiver_loop env sd conns flag errmsg buff).trace := by
  induction conns with
  | nil =>
    intro flag errmsg buff
    rw [tcp_receiver_loop]
    split <;> simp
  | cons c rest ih =>
    intro flag errmsg buff
    rw [tcp_receiver_loop]
    dsimp only
    repeat' split
    all_goals first
      | simp
      | simpa [Run.after] using ih _ _ _

theorem tcp_receiver_never_closes (env : Env) (sd x : Int) (errmsg : String) :
    Event.sys_close x ∉ (tcp_receiver env sd errmsg).trace :=
  loop_never_closes env sd x env.conns 1 errmsg env.buff0

/-! ## Auxiliary facts: `tcp_server` and `main` -/

/-- What `tcp_server` does once `socket`, `bind` and `listen` have succeeded
and `tcp_receiver` has returned. -/
theorem tcp_server_after_setup (env : Env) (info : sv_info_t) (errmsg : String) (sd : Nat)
    (hs : env.socket = .ok sd) (hb : env.bind = .ok) (hl : env.listen = .ok) (rc : Int)
    (hr : (tcp_receiver env sd errmsg).exit = .returned rc) :
    tcp_server env info errmsg =
      { exit := .returned rc, errmsg := (tcp_receiver env sd errmsg).errmsg,
        trace := [.sys_socket, .sys_bind sd info.sv_port, .sys_listen sd MAXPENDING] ++
          (tcp_receiver env sd errmsg).trace ++
          (if (sd : Int) ≠ 0 then [.sys_close sd] else []) } := by
  have hsd : ¬ ((sd : Int) < 0) := by omega
  simp [tcp_server, hs, hb, hl, FdResult.rc, SysResult.rc, hsd, hr, close_exit]

/-- What `main` does with a program name and one argument. -/
theorem main_two_arguments (env : Env) (overflow : Int → Int) (prog port : String) (r : Run)
    (hr : tcp_server env { sv_port := to_ushort (atoi overflow port) } env.errmsg0 = r) :
    (∀ rc, r.exit = .returned rc → rc ≠ 0 →
      main env overflow [prog, port] =
        { exit := .returned (-1), errmsg := r.errmsg,
          trace := r.trace ++ [error_line r.errmsg] }) ∧
    (r.exit = .returned 0 →
      main env overflow [prog, port] =
        { exit := .returned 0, errmsg := r.errmsg, trace := r.trace }) := by
  subst hr
  constructor
  · intro rc hx hrc
    simp [main, initialize_sv, hx, hrc]
  · intro hx
    simp [main, initialize_sv, hx]

/-- What `initialize` and `main` do with an argument count other than 2,
according to whether the usage text fits into `errmsg`. -/
theorem usage_path (env : Env) (overflow : Int → Int) (prog : String) (rest : List String) :
    (∀ (bufsiz : Nat) (argc : Int) (info : sv_info_t) (errmsg : String), argc ≠ 2 →
      (prog.utf8ByteSize + 16 ≤ bufsiz →
        initialize_sv bufsiz overflow argc (prog :: rest) info errmsg =
          { exit := .returned (-1), info := info,
            errmsg := "Usage: " ++ prog ++ " <port>\n" }) ∧
      (bufsiz < prog.utf8ByteSize + 16 →
        initialize_sv bufsiz overflow argc (prog :: rest) info errmsg =
          { exit := .undefined, info := info, errmsg := errmsg })) ∧
    (rest.length ≠ 1 →
      (prog.utf8ByteSize + 16 ≤ env.BUFSIZ →
        main env overflow (prog :: rest) =
          { exit := .returned (-1), errmsg := "Usage: " ++ prog ++ " <port>\n",
            trace := [.err_line ("Error: " ++ ("Usage: " ++ prog ++ " <port>\n") ++ "\n")] }) ∧
      (env.BUFSIZ < prog.utf8ByteSize + 16 →
        main env overflow (prog :: rest) =
          { exit := .undefined, errmsg := env.errmsg0, trace := [] })) := by
  have hinit : ∀ (bufsiz : Nat) (argc : Int) (info : sv_info_t) (errmsg : String), argc ≠ 2 →
      (prog.utf8ByteSize + 16 ≤ bufsiz →
        initialize_sv bufsiz overflow argc (prog :: rest) info errmsg =
          { exit := .returned (-1), info := info,
            errmsg := "Usage: " ++ prog ++ " <port>\n" }) ∧
      (bufsiz < prog.utf8ByteSize + 16 →
        initialize_sv bufsiz overflow argc (prog :: rest) info errmsg =
          { exit := .undefined, info := info, errmsg := errmsg }) := by
    intro bufsiz argc info errmsg hargc
    constructor
    · intro hfit
      have hf : fits bufsiz ("Usage: " ++ prog ++ " <port>\n") = true := by
        rw [fits_usage_text]
        exact decide_eq_true hfit
      simp only [initialize_sv, hargc, ne_eq, not_false_eq_true, if_true, List.get?, hf]
    · intro hover
      have hf : fits bufsiz ("Usage: " ++ prog ++ " <port>\n") = false := by
        rw [fits_usage_text]
        exact decide_eq_false (by omega)
      simp only [initialize_sv, hargc, ne_eq, not_false_eq_true, if_true, List.get?, hf]
      rfl
  refine ⟨hinit, ?_⟩
  intro hrest
  have hlen : ((prog :: rest).length : Int) ≠ 2 := by
    simp only [List.length_cons, Nat.cast_add, Nat.cast_one]
    omega
  have h := hinit env.BUFSIZ ((prog :: rest).length : Int) { sv_port := 0 } env.errmsg0 hlen
  constructor
  · intro hfit
    unfold main
    rw [h.1 hfit]
    simp [error_line]
  · intro hover
    unfold main
    rw [h.2 hover]

/-- The three failures of the set-up, in terms of `fmt_error` and `error_line`. -/
theorem setup_failure (env : Env) (info : sv_info_t) (errmsg : String)
    (overflow : Int → Int) (prog port : String) :
    (∀ e, env.socket = .fail e →
      tcp_server env info errmsg =
        { exit := .returned (-1), errmsg := fmt_error env 89 e, trace := [.sys_socket] } ∧
      main env overflow [prog, port] =
        { exit := .returned (-1), errmsg := fmt_error env 89 e,
          trace := [.sys_socket, error_line (fmt_error env 89 e)] }) ∧
    (∀ sd e, env.socket = .ok sd → env.bind = .fail e →
      tcp_server env info errmsg =
        { exit := .returned (-1), errmsg := fmt_error env 102 e,
          trace := [.sys_socket, .sys_bind sd info.sv_port] ++
            (if (sd : Int) ≠ 0 then [.sys_close sd] else []) } ∧
      main env overflow [prog, port] =
        { exit := .returned (-1), errmsg := fmt_error env 102 e,
          trace := [.sys_socket, .sys_bind sd (to_ushort (atoi overflow port))] ++
            (if (sd : Int) ≠ 0 then [.sys_close sd] else []) ++
            [error_line (fmt_error env 102 e)] }) ∧
    (∀ sd e, env.socket = .ok sd → env.bind = .ok → env.listen = .fail e →
      tcp_server env info errmsg =
        { exit := .returned (-1), errmsg := fmt_error env 109 e,
          trace := [.sys_socket, .sys_bind sd info.sv_port, .sys_listen sd MAXPENDING] ++
            (if (sd : Int) ≠ 0 then [.sys_close sd] else []) } ∧
      main env overflow [prog, port] =
        { exit := .returned (-1), errmsg := fmt_error env 109 e,
          trace := [.sys_socket, .sys_bind sd (to_ushort (atoi overflow port)),
                    .sys_listen sd MAXPENDING] ++
            (if (sd : Int) ≠ 0 then [.sys_close sd] else []) ++
            [error_line (fmt_error env 109 e)] }) ∧
    ((tcp_server env info errmsg).exit = .returned 0 →
      (∃ sd, env.socket = .ok sd) ∧ env.bind = .ok ∧ env.listen = .ok) := by
  refine ⟨?_, ?_, ?_, ?_⟩
  · intro e hs
    have h1 : ∀ (i : sv_info_t) (m : String), tcp_server env i m =
        { exit := .returned (-1), errmsg := fmt_error env 89 e, trace := [.sys_socket] } := by
      intro i m
      simp [tcp_server, hs, FdResult.rc, FdResult.errno]
    refine ⟨h1 info errmsg, ?_⟩
    simp [main, initialize_sv, h1]
  · intro sd e hs hb
    have h1 : ∀ (i : sv_info_t) (m : String), tcp_server env i m =
        { exit := .returned (-1), errmsg := fmt_error env 102 e,
          trace := [.sys_socket, .sys_bind sd i.sv_port] ++
            (if (sd : Int) ≠ 0 then [.sys_close sd] else []) } := by
      intro i m
      have hsd : ¬ ((sd : Int) < 0) := by omega
      simp [tcp_server, hs, hb, FdResult.rc, SysResult.rc, SysResult.errno, close_exit, hsd]
    refine ⟨h1 info errmsg, ?_⟩
    simp [main, initialize_sv, h1]
  · intro sd e hs hb hl
    have h1 : ∀ (i : sv_info_t) (m : String), tcp_server env i m =
        { exit := .returned (-1), errmsg := fmt_error env 109 e,
          trace := [.sys_socket, .sys_bind sd i.sv_port, .sys_listen sd MAXPENDING] ++
            (if (sd : Int) ≠ 0 then [.sys_close sd] else []) } := by
      intro i m
      have hsd : ¬ ((sd : Int) < 0) := by omega
      simp [tcp_server, hs, hb, hl, FdResult.rc, SysResult.rc, SysResult.errno, close_exit, hsd]
    refine ⟨h1 info errmsg, ?_⟩
    simp [main, initialize_sv, h1]
  · intro h0
    cases hs : env.socket with
    | fail e => simp [tcp_server, hs, FdResult.rc] at h0
    | ok sd =>
      have hsd : ¬ ((sd : Int) < 0) := by omega
      cases hb : env.bind with
      | fail e => simp [tcp_server, hs, hb, FdResult.rc, SysResult.rc, close_exit, hsd] at h0
      | ok =>
        cases hl : env.listen with
        | fail e =>
          simp [tcp_server, hs, hb, hl, FdResult.rc, SysResult.rc, close_exit, hsd] at h0
        | ok => exact ⟨⟨sd, rfl⟩, rfl, rfl⟩

/-! ## C1 -/

/-- C1 (the code at the failing input): a first client sends `hello world!`
and a NUL, a second client sends exactly the 9 bytes `terminate`.  Whatever
`buff` held at first, the second message is printed as `terminateld!`, the
comparison fails, and the server goes back to `accept`: it neither returns
nor closes the listening socket. -/
theorem c1_terminate_after_longer_message_keeps_running (buff0 : List Nat) :
    main (linux_machine (.ok 3) .ok .ok
        [local_conn 4 (hello_world ++ [0]), local_conn 5 terminate] buff0)
        id ["server", "9090"] =
      { exit := .blocked, errmsg := "",
        trace := [.sys_socket, .sys_bind 3 9090, .sys_listen 3 5,
                  .sys_accept 3, .out_client "127.0.0.1", .sys_recv 4 8192,
                  .out_message hello_world,
                  .sys_accept 3, .out_client "127.0.0.1", .sys_recv 5 8192,
                  .out_message (terminate ++ [108, 100, 33]),
                  .sys_accept 3] } := by
  have hloop : ∀ env : Env, env.BUFSIZ = 8192 →
      tcp_receiver_loop env 3 [local_conn 4 (hello_world ++ [0]), local_conn 5 terminate] 1 ""
        buff0 =
      { exit := .blocked, errmsg := "",
        trace := [.sys_accept 3, .out_client "127.0.0.1", .sys_recv 4 8192,
                  .out_message hello_world,
                  .sys_accept 3, .out_client "127.0.0.1", .sys_recv 5 8192,
                  .out_message (terminate ++ [108, 100, 33]),
                  .sys_accept 3] } := by
    intro env hsize
    have h1 := (loop_turn env 3 (local_conn 4 (hello_world ++ [0])) [local_conn 5 terminate] ""
      buff0 4 (hello_world ++ [0]) rfl rfl).1
    have hgot1 : recv_bytes env.BUFSIZ (hello_world ++ [0]) = hello_world ++ [0] := by
      rw [hsize]; rfl
    have hb1 : recv_into buff0 (hello_world ++ [0]) = hello_world ++ 0 :: buff0.drop 13 := by
      simp [recv_into, hello_world]
    rw [hgot1, hb1] at h1
    have ht1 : before_nul (hello_world ++ 0 :: buff0.drop 13) = hello_world := by
      simp [before_nul, hello_world]
    have hne1 : hello_world ≠ terminate := by decide
    rw [ht1, if_neg hne1] at h1
    have h2 := (loop_turn env 3 (local_conn 5 terminate) [] ""
      (hello_world ++ 0 :: buff0.drop 13) 5 terminate rfl rfl).1
    have hgot2 : recv_bytes env.BUFSIZ terminate = terminate := by
      rw [hsize]; rfl
    have hb2 : recv_into (hello_world ++ 0 :: buff0.drop 13) terminate =
        terminate ++ 108 :: 100 :: 33 :: 0 :: buff0.drop 13 := by
      simp [recv_into, hello_world, terminate]
    rw [hgot2, hb2] at h2
    have ht2 : before_nul (terminate ++ 108 :: 100 :: 33 :: 0 :: buff0.drop 13) =
        terminate ++ [108, 100, 33] := by
      simp [before_nul, terminate]
    have hne2 : terminate ++ [108, 100, 33] ≠ terminate := by decide
    rw [ht2, if_neg hne2] at h2
    rw [h1 (by simp), h2 (by simp [terminate])]
    simp [tcp_receiver_loop, Run.after, local_conn, hsize]
  have hport : to_ushort (atoi id "9090") = 9090 := by decide
  simp [main, initialize_sv, tcp_server, tcp_receiver, linux_machine, FdResult.rc,
    SysResult.rc, hloop, Run.after, MAXPENDING, hport]

/-! ## C2 -/

/-- C2 (counterexample): the bytes `terminate`, NUL, `!` are not the literal
`terminate`, yet the loop stops after them and the next connection is never
accepted. -/
theorem c2_terminate_then_more_bytes_stops :
    recv_bytes 8192 (terminate ++ [0, 33]) ≠ terminate ∧
    tcp_receiver
        (linux_env 3 [local_conn 4 (terminate ++ [0, 33]), local_conn 5 [104, 105, 0]]) 3 "" =
      { exit := .returned 0, errmsg := "",
        trace := [.sys_accept 3, .out_client "127.0.0.1", .sys_recv 4 8192,
                  .out_message terminate] } := by
  decide

/-- C2 (amended): after a receive whose bytes hold a NUL byte the loop stops
exactly when the bytes in front of the first NUL are the literal `terminate`;
otherwise it stays in the loop and its next step is `accept`. -/
theorem c2_stop_iff_text_before_nul_is_terminate (env : Env) (sd : Int) (c : Conn)
    (rest : List Conn) (errmsg : String) (buff : List Nat) (fd : Nat) (pending : List Nat)
    (hacc : c.accept = .ok fd) (hrecv : c.recv = .data pending)
    (hnul : 0 ∈ recv_bytes env.BUFSIZ pending) :
    (before_nul (recv_bytes env.BUFSIZ pending) = terminate →
      tcp_receiver_loop env sd (c :: rest) 1 errmsg buff =
        { exit := .returned 0, errmsg := errmsg,
          trace := [.sys_accept sd, .out_client c.peer, .sys_recv fd env.BUFSIZ,
                    .out_message terminate] }) ∧
    (before_nul (recv_bytes env.BUFSIZ pending) ≠ terminate →
      tcp_receiver_loop env sd (c :: rest) 1 errmsg buff =
        Run.after [.sys_accept sd, .out_client c.peer, .sys_recv fd env.BUFSIZ,
                   .out_message (before_nul (recv_bytes env.BUFSIZ pending))]
          (tcp_receiver_loop env sd rest 1 errmsg
            (recv_into buff (recv_bytes env.BUFSIZ pending))) ∧
      (tcp_receiver_loop env sd rest 1 errmsg
          (recv_into buff (recv_bytes env.BUFSIZ pending))).trace.head? =
        some (.sys_accept sd)) := by
  have hstep := loop_step_of_nul env sd c rest errmsg buff fd pending hacc hrecv hnul
  constructor
  · intro ht
    rw [hstep, if_pos ht, loop_flag_zero, ht]
    rfl
  · intro ht
    rw [hstep, if_neg ht]
    exact ⟨rfl, loop_starts_with_accept env sd rest errmsg _⟩

/-- C2 (witness): the bytes `Terminate` and a NUL (capital `T`) on the first
connection of a run: the loop prints them and accepts again. -/
theorem c2_stop_iff_text_before_nul_is_terminate_witness :
    (local_conn 4 ([84] ++ terminate.tail ++ [0])).accept = .ok 4 ∧
    (local_conn 4 ([84] ++ terminate.tail ++ [0])).recv =
      .data ([84] ++ terminate.tail ++ [0]) ∧
    0 ∈ recv_bytes (linux_env 3 []).BUFSIZ ([84] ++ terminate.tail ++ [0]) ∧
    before_nul (recv_bytes (linux_env 3 []).BUFSIZ ([84] ++ terminate.tail ++ [0])) ≠
      terminate ∧
    tcp_receiver_loop (linux_env 3 []) 3 [local_conn 4 ([84] ++ terminate.tail ++ [0])] 1 ""
        (linux_env 3 []).buff0 =
      Run.after [.sys_accept 3, .out_client "127.0.0.1", .sys_recv 4 8192,
                 .out_message ([84] ++ terminate.tail)]
        (tcp_receiver_loop (linux_env 3 []) 3 [] 1 ""
          (recv_into (linux_env 3 []).buff0 ([84] ++ terminate.tail ++ [0]))) :=
  ⟨rfl, rfl, by decide, by decide,
    ((c2_stop_iff_text_before_nul_is_terminate (linux_env 3 []) 3
        (local_conn 4 ([84] ++ terminate.tail ++ [0])) [] "" (linux_env 3 []).buff0 4
        ([84] ++ terminate.tail ++ [0]) rfl rfl (by decide)).2 (by decide)).1⟩

/-! ## C3 -/

/-- C3 (the code at the failing input): when `socket` returns descriptor 0,
`tcp_server` never calls `close`, whatever `bind`, `listen` and the loop do;
for instance with `bind` failing on a port in use it returns `-1` after
`socket` and `bind` only, and descriptor 0 stays open. -/
theorem c3_descriptor_zero_is_never_closed :
    (∀ (env : Env) (info : sv_info_t) (errmsg : String) (x : Int),
      Event.sys_close x ∉ (tcp_server { env with socket := .ok 0 } info errmsg).trace) ∧
    tcp_server (linux_env_with (.ok 0) (.fail 98) .ok []) { sv_port := 9090 } "" =
      { exit := .returned (-1), errmsg := "(line:102) Address already in use",
        trace := [.sys_socket, .sys_bind 0 9090] } := by
  refine ⟨?_, by decide⟩
  intro env info errmsg x
  unfold tcp_server
  simp only [FdResult.rc]
  repeat' split
  all_goals simp [close_exit, Run.after, tcp_receiver_never_closes]

/-! ## C4 -/

/-- C4 (the code at the failing input): `socket` returns descriptor 0 and the
first `accept` fails.  `tcp_receiver` returns `-1` at once and `main` prints
the error and returns `-1`, but `tcp_server` does not close the listening
socket on the way out. -/
theorem c4_accept_failure_on_descriptor_zero_leaves_socket_open :
    main (linux_env_with (.ok 0) .ok .ok [{ accept := .fail 24, peer := "", recv := .data [] }])
        id ["server", "9090"] =
      { exit := .returned (-1), errmsg := "(line:47) Too many open files",
        trace := [.sys_socket, .sys_bind 0 9090, .sys_listen 0 5, .sys_accept 0,
                  .err_line "Error: (line:47) Too many open files\n"] } := by
  decide

/-! ## C5 -/

/-- C5: when `socket`, `bind` or `listen` fails, `tcp_server` does none of the
later steps, leaves the text `(line:89) `, `(line:102) ` or `(line:109) `
followed by `strerror(errno)` in `errmsg` and returns `-1`, and `main` (called
with a port argument) prints `Error: `, that text and a newline and returns
`-1`; `tcp_server` returns `0` only when all three succeeded. -/
theorem c5_setup_failure_returns_minus_one (env : Env) (info : sv_info_t) (errmsg : String)
    (overflow : Int → Int) (prog port : String) :
    (∀ e, env.socket = .fail e →
      tcp_server env info errmsg =
        { exit := .returned (-1), errmsg := "(line:89) " ++ env.strerror e,
          trace := [.sys_socket] } ∧
      main env overflow [prog, port] =
        { exit := .returned (-1), errmsg := "(line:89) " ++ env.strerror e,
          trace := [.sys_socket,
                    .err_line ("Error: " ++ ("(line:89) " ++ env.strerror e) ++ "\n")] }) ∧
    (∀ sd e, env.socket = .ok sd → env.bind = .fail e →
      tcp_server env info errmsg =
        { exit := .returned (-1), errmsg := "(line:102) " ++ env.strerror e,
          trace := [.sys_socket, .sys_bind sd info.sv_port] ++
            (if (sd : Int) ≠ 0 then [.sys_close sd] else []) } ∧
      main env overflow [prog, port] =
        { exit := .returned (-1), errmsg := "(line:102) " ++ env.strerror e,
          trace := [.sys_socket, .sys_bind sd (to_ushort (atoi overflow port))] ++
            (if (sd : Int) ≠ 0 then [.sys_close sd] else []) ++
            [.err_line ("Error: " ++ ("(line:102) " ++ env.strerror e) ++ "\n")] }) ∧
    (∀ sd e, env.socket = .ok sd → env.bind = .ok → env.listen = .fail e →
      tcp_server env info errmsg =
        { exit := .returned (-1), errmsg := "(line:109) " ++ env.strerror e,
          trace := [.sys_socket, .sys_bind sd info.sv_port, .sys_listen sd 5] ++
            (if (sd : Int) ≠ 0 then [.sys_close sd] else []) } ∧
      main env overflow [prog, port] =
        { exit := .returned (-1), errmsg := "(line:109) " ++ env.strerror e,
          trace := [.sys_socket, .sys_bind sd (to_ushort (atoi overflow port)),
                    .sys_listen sd 5] ++
            (if (sd : Int) ≠ 0 then [.sys_close sd] else []) ++
            [.err_line ("Error: " ++ ("(line:109) " ++ env.strerror e) ++ "\n")] }) ∧
    ((tcp_server env info errmsg).exit = .returned 0 →
      (∃ sd, env.socket = .ok sd) ∧ env.bind = .ok ∧ env.listen = .ok) :=
  setup_failure env info errmsg overflow prog port

/-- C5 (witness): no descriptor left for `socket`; the port in use at `bind`
on descriptor 3; `listen` refused on descriptor 3. -/
theorem c5_setup_failure_returns_minus_one_witness :
    tcp_server (linux_env_with (.fail 24) .ok .ok []) { sv_port := 9090 } "" =
      { exit := .returned (-1), errmsg := "(line:89) Too many open files",
        trace := [.sys_socket] } ∧
    tcp_server (linux_env_with (.ok 3) (.fail 98) .ok []) { sv_port := 9090 } "" =
      { exit := .returned (-1), errmsg := "(line:102) Address already in use",
        trace := [.sys_socket, .sys_bind 3 9090, .sys_close 3] } ∧
    main (linux_env_with (.ok 3) .ok (.fail 98) []) id ["server", "9090"] =
      { exit := .returned (-1), errmsg := "(line:109) Address already in use",
        trace := [.sys_socket, .sys_bind 3 9090, .sys_listen 3 5, .sys_close 3,
                  .err_line "Error: (line:109) Address already in use\n"] } :=
  ⟨((c5_setup_failure_returns_minus_one (linux_env_with (.fail 24) .ok .ok [])
        { sv_port := 9090 } "" id "server" "9090").1 24 rfl).1,
    ((c5_setup_failure_returns_minus_one (linux_env_with (.ok 3) (.fail 98) .ok [])
        { sv_port := 9090 } "" id "server" "9090").2.1 3 98 rfl rfl).1,
    ((c5_setup_failure_returns_minus_one (linux_env_with (.ok 3) .ok (.fail 98) [])
        { sv_port := 9090 } "" id "server" "9090").2.2.1 3 98 rfl rfl rfl).2⟩

/-! ## C6 -/

/-- C6 (the code at the failing input): the usage text is `argv[0]` and 15
more bytes, plus the closing NUL.  Whenever `argv[0]` has more than
`BUFSIZ - 16` bytes, the `sprintf` of `initialize` does not fit into
`errmsg[BUFSIZ]` and writes behind the array: the call is undefined instead
of returning `-1`.  So it is for the program started without argument under a
name of 9000 bytes where `BUFSIZ` is 8192: `main` prints no usage line. -/
theorem c6_long_program_name_overruns_errmsg :
    (∀ (bufsiz : Nat) (overflow : Int → Int) (argc : Int) (prog : String)
        (rest : List String) (info : sv_info_t) (errmsg : String),
      argc ≠ 2 → bufsiz < prog.utf8ByteSize + 16 →
        (initialize_sv bufsiz overflow argc (prog :: rest) info errmsg).exit = .undefined) ∧
    long_name.utf8ByteSize = 9000 ∧
    (linux_env 3 []).BUFSIZ = 8192 ∧
    main (linux_env 3 []) id [long_name] =
      { exit := .undefined, errmsg := "", trace := [] } := by
  refine ⟨?_, long_name_size, rfl, ?_⟩
  · intro bufsiz overflow argc prog rest info errmsg hargc hover
    have h := (usage_path (linux_env 3 []) overflow prog rest).1 bufsiz argc info errmsg hargc
    rw [h.2 hover]
  · have hover : (linux_env 3 []).BUFSIZ < long_name.utf8ByteSize + 16 := by
      rw [long_name_size]
      show 8192 < 9000 + 16
      omega
    exact ((usage_path (linux_env 3 []) id long_name []).2 (by decide)).2 hover

/-! ## C7 -/

/-- C7 (counterexample): a client sends `hi`, a NUL and 8200 more bytes.  The
first `BUFSIZ = 8192` bytes are received, but the `message:` line holds only
`hi`, not that chunk. -/
theorem c7_chunk_with_nul_is_reported_cut :
    8192 < long_message.length ∧
    long_message.take 8192 ≠ [104, 105] ∧
    tcp_receiver (linux_env 3 [local_conn 4 long_message]) 3 "" =
      { exit := .blocked, errmsg := "",
        trace := [.sys_accept 3, .out_client "127.0.0.1", .sys_recv 4 8192,
                  .out_message [104, 105], .sys_accept 3] } := by
  have hnul : 0 ∈ recv_bytes (linux_env 3 [local_conn 4 long_message]).BUFSIZ long_message := by
    show 0 ∈ recv_bytes 8192 long_message
    rw [recv_long_message]
    simp
  have htext :
      before_nul (recv_bytes (linux_env 3 [local_conn 4 long_message]).BUFSIZ long_message)
        = [104, 105] := by
    show before_nul (recv_bytes 8192 long_message) = [104, 105]
    rw [recv_long_message]
    simp [before_nul]
  refine ⟨by simp [long_message, padding_length], ?_, ?_⟩
  · show recv_bytes 8192 long_message ≠ [104, 105]
    rw [recv_long_message]
    simp
  · unfold tcp_receiver
    have h := loop_step_of_nul (linux_env 3 [local_conn 4 long_message]) 3
      (local_conn 4 long_message) [] "" (linux_env 3 [local_conn 4 long_message]).buff0 4
      long_message rfl rfl hnul
    rw [htext] at h
    have hne : ([104, 105] : List Nat) ≠ terminate := by decide
    rw [if_neg hne] at h
    rw [show (linux_env 3 [local_conn 4 long_message]).conns = [local_conn 4 long_message]
      from rfl, h]
    simp only [tcp_receiver_loop, one_ne_zero, if_false, Run.after]
    rfl

/-- C7 (amended): when the client has sent more than `BUFSIZ` bytes and the
first `BUFSIZ` of them hold a NUL byte, the turn of the loop is one `accept`,
the client line, one `recv` asking for `BUFSIZ` bytes and a `message:` line
with the bytes of that chunk in front of its first NUL; the loop then goes on
with the connections that follow, and the bytes after the chunk change
nothing in the run. -/
theorem c7_first_chunk_reported_up_to_nul (env : Env) (sd : Int) (c : Conn)
    (rest : List Conn) (errmsg : String) (buff : List Nat) (fd : Nat) (pending : List Nat)
    (hacc : c.accept = .ok fd) (hrecv : c.recv = .data pending)
    (hlong : env.BUFSIZ < pending.length) (hnul : 0 ∈ pending.take env.BUFSIZ) :
    (pending.take env.BUFSIZ).length = env.BUFSIZ ∧
    tcp_receiver_loop env sd (c :: rest) 1 errmsg buff =
      Run.after [.sys_accept sd, .out_client c.peer, .sys_recv fd env.BUFSIZ,
                 .out_message (before_nul (pending.take env.BUFSIZ))]
        (tcp_receiver_loop env sd rest
          (if before_nul (pending.take env.BUFSIZ) = terminate then 0 else 1)
          errmsg (recv_into buff (pending.take env.BUFSIZ))) ∧
    tcp_receiver_loop env sd ({ c with recv := .data (pending.take env.BUFSIZ) } :: rest) 1
        errmsg buff =
      tcp_receiver_loop env sd (c :: rest) 1 errmsg buff := by
  have hstep := loop_step_of_nul env sd c rest errmsg buff fd pending hacc hrecv hnul
  have hnul2 : 0 ∈ recv_bytes env.BUFSIZ (pending.take env.BUFSIZ) := by
    simpa [recv_bytes, List.take_take] using hnul
  have hstep2 := loop_step_of_nul env sd { c with recv := .data (pending.take env.BUFSIZ) }
    rest errmsg buff fd (pending.take env.BUFSIZ) hacc rfl hnul2
  refine ⟨?_, hstep, ?_⟩
  · simp [List.length_take]; omega
  · rw [hstep, hstep2]
    simp [recv_bytes, List.take_take]

/-- C7 (witness): with `BUFSIZ = 4`, the six bytes `h i NUL A A A` on a
connection: one `recv` of 4 bytes, the message `hi`. -/
theorem c7_first_chunk_reported_up_to_nul_witness :
    (4 : Nat) < ([104, 105, 0, 65, 65, 65] : List Nat).length ∧
    (0 : Nat) ∈ ([104, 105, 0, 65, 65, 65] : List Nat).take 4 ∧
    tcp_receiver_loop { linux_env 3 [] with BUFSIZ := 4 } 3
        [local_conn 4 [104, 105, 0, 65, 65, 65]] 1 "" [7, 7, 7, 7] =
      Run.after [.sys_accept 3, .out_client "127.0.0.1", .sys_recv 4 4,
                 .out_message [104, 105]]
        (tcp_receiver_loop { linux_env 3 [] with BUFSIZ := 4 } 3 [] 1 "" [104, 105, 0, 65]) :=
  ⟨by decide, by decide,
    (c7_first_chunk_reported_up_to_nul { linux_env 3 [] with BUFSIZ := 4 } 3
      (local_conn 4 [104, 105, 0, 65, 65, 65]) [] "" [7, 7, 7, 7] 4
      [104, 105, 0, 65, 65, 65] rfl rfl (by decide) (by decide)).2.1⟩

/-! ## C8 -/

/-- C8 (the code at the failing input): a first client sends `hello` and a
NUL, a second client connects and sends nothing.  Whatever `buff` held at
first, the `message:` line of the second turn shows `hello` again, not an
empty message. -/
theorem c8_empty_receive_prints_previous_message (buff0 : List Nat) :
    tcp_receiver
        (linux_machine (.ok 3) .ok .ok [local_conn 4 (hello ++ [0]), local_conn 5 []] buff0)
        3 "" =
      { exit := .blocked, errmsg := "",
        trace := [.sys_accept 3, .out_client "127.0.0.1", .sys_recv 4 8192,
                  .out_message hello,
                  .sys_accept 3, .out_client "127.0.0.1", .sys_recv 5 8192,
                  .out_message hello,
                  .sys_accept 3] } := by
  have hloop : ∀ env : Env, env.BUFSIZ = 8192 →
      tcp_receiver_loop env 3 [local_conn 4 (hello ++ [0]), local_conn 5 []] 1 "" buff0 =
      { exit := .blocked, errmsg := "",
        trace := [.sys_accept 3, .out_client "127.0.0.1", .sys_recv 4 8192,
                  .out_message hello,
                  .sys_accept 3, .out_client "127.0.0.1", .sys_recv 5 8192,
                  .out_message hello,
                  .sys_accept 3] } := by
    intro env hsize
    have h1 := (loop_turn env 3 (local_conn 4 (hello ++ [0])) [local_conn 5 []] ""
      buff0 4 (hello ++ [0]) rfl rfl).1
    have hgot1 : recv_bytes env.BUFSIZ (hello ++ [0]) = hello ++ [0] := by
      rw [hsize]; rfl
    have hb1 : recv_into buff0 (hello ++ [0]) = hello ++ 0 :: buff0.drop 6 := by
      simp [recv_into, hello]
    rw [hgot1, hb1] at h1
    have ht1 : before_nul (hello ++ 0 :: buff0.drop 6) = hello := by
      simp [before_nul, hello]
    have hne1 : hello ≠ terminate := by decide
    rw [ht1, if_neg hne1] at h1
    have h2 := (loop_turn env 3 (local_conn 5 []) [] ""
      (hello ++ 0 :: buff0.drop 6) 5 [] rfl rfl).1
    have hb2 : recv_into (hello ++ 0 :: buff0.drop 6) (recv_bytes env.BUFSIZ []) =
        hello ++ 0 :: buff0.drop 6 := by
      simp [recv_into, recv_bytes]
    rw [hb2, ht1, if_neg hne1] at h2
    rw [h1 (by simp), h2 (by simp)]
    simp [tcp_receiver_loop, Run.after, local_conn, hsize]
  exact hloop _ rfl

/-! ## C9 -/

/-- C9: with two arguments `initialize` returns `0` whatever the port text
is, and when the text does not start (after white space and a sign) with a
digit the stored port is `0`. -/
theorem c9_port_text_never_rejected (bufsiz : Nat) (overflow : Int → Int)
    (prog port : String)
    (info : sv_info_t) (errmsg : String) :
    (initialize_sv bufsiz overflow 2 [prog, port] info errmsg).exit = .returned 0 ∧
    (begins_with_number port.toList = false →
      (initialize_sv bufsiz overflow 2 [prog, port] info errmsg).info.sv_port = 0) := by
  refine ⟨by simp [initialize_sv], ?_⟩
  intro h
  have h0 : leading_decimal port.data = 0 := leading_decimal_of_no_number port.toList h
  simp [initialize_sv, atoi, h0, INT_MIN, INT_MAX, to_ushort]

/-- C9 (witness): the port text `http` is taken and gives port `0`. -/
theorem c9_port_text_never_rejected_witness :
    begins_with_number "http".toList = false ∧
    (initialize_sv 8192 id 2 ["server", "http"] { sv_port := 7 } "").exit = .returned 0 ∧
    (initialize_sv 8192 id 2 ["server", "http"] { sv_port := 7 } "").info.sv_port = 0 :=
  ⟨by decide,
    (c9_port_text_never_rejected 8192 id "server" "http" { sv_port := 7 } "").1,
    (c9_port_text_never_rejected 8192 id "server" "http" { sv_port := 7 } "").2 (by decide)⟩

/-! ## C10 -/

/-- C10: when the number at the start of `argv[1]` is an `int`, the stored
port is that number modulo 65536; a number from 0 to 65535 is stored as it
is. -/
theorem c10_port_is_number_mod_65536 (bufsiz : Nat) (overflow : Int → Int)
    (prog port : String)
    (info : sv_info_t) (errmsg : String)
    (hlo : INT_MIN ≤ leading_decimal port.toList)
    (hhi : leading_decimal port.toList ≤ INT_MAX) :
    (initialize_sv bufsiz overflow 2 [prog, port] info errmsg).exit = .returned 0 ∧
    ((initialize_sv bufsiz overflow 2 [prog, port] info errmsg).info.sv_port : Int) =
      leading_decimal port.toList % 65536 ∧
    (0 ≤ leading_decimal port.toList → leading_decimal port.toList ≤ 65535 →
      ((initialize_sv bufsiz overflow 2 [prog, port] info errmsg).info.sv_port : Int) =
        leading_decimal port.toList) := by
  have hport : ((initialize_sv bufsiz overflow 2 [prog, port] info errmsg).info.sv_port : Int) =
      leading_decimal port.toList % 65536 := by
    simp only [initialize_sv, ne_eq, not_true_eq_false, if_false, List.get?, atoi, hlo, hhi,
      and_self, if_true, to_ushort]
    exact Int.toNat_of_nonneg (Int.emod_nonneg _ (by decide))
  refine ⟨by simp [initialize_sv], hport, ?_⟩
  intro h0 h1
  rw [hport]
  exact Int.emod_eq_of_lt h0 (by omega)

/-- C10 (witness): the port texts `65536`, `70000`, `-1` and `8080` give the
ports 0, 4464, 65535 and 8080. -/
theorem c10_port_is_number_mod_65536_witness :
    (INT_MIN ≤ leading_decimal "65536".toList ∧ leading_decimal "65536".toList ≤ INT_MAX ∧
      ((initialize_sv 8192 id 2 ["server", "65536"] { sv_port := 0 } "").info.sv_port : Int) =
        leading_decimal "65536".toList % 65536 ∧
      leading_decimal "65536".toList % 65536 = 0) ∧
    (((initialize_sv 8192 id 2 ["server", "70000"] { sv_port := 0 } "").info.sv_port : Int) =
        leading_decimal "70000".toList % 65536 ∧
      leading_decimal "70000".toList % 65536 = 4464) ∧
    (((initialize_sv 8192 id 2 ["server", "-1"] { sv_port := 0 } "").info.sv_port : Int) =
        leading_decimal "-1".toList % 65536 ∧
      leading_decimal "-1".toList % 65536 = 65535) ∧
    ((initialize_sv 8192 id 2 ["server", "8080"] { sv_port := 0 } "").info.sv_port : Int) = 8080 :=
  ⟨⟨by decide, by decide,
      (c10_port_is_number_mod_65536 8192 id "server" "65536" { sv_port := 0 } ""
        (by decide) (by decide)).2.1, by decide⟩,
    ⟨(c10_port_is_number_mod_65536 8192 id "server" "70000" { sv_port := 0 } ""
        (by decide) (by decide)).2.1, by decide⟩,
    ⟨(c10_port_is_number_mod_65536 8192 id "server" "-1" { sv_port := 0 } ""
        (by decide) (by decide)).2.1, by decide⟩,
    (c10_port_is_number_mod_65536 8192 id "server" "8080" { sv_port := 0 } ""
        (by decide) (by decide)).2.2 (by decide) (by decide)⟩

/-! ## Further facts about the code -/

/-- A turn of the loop on a connection that is accepted and read, in full:
when `buff` holds a NUL byte after the receive, the `message:` line shows the
C string in `buff` (the received bytes followed by what `buff` held behind
them) and the loop stops exactly when that string is `terminate`; when `buff`
holds no NUL byte the read for the `message:` line leaves the array. -/
theorem turn_prints_and_compares_buffer_string (env : Env) (sd : Int) (c : Conn)
    (rest : List Conn) (errmsg : String) (buff : List Nat) (fd : Nat) (pending : List Nat)
    (hacc : c.accept = .ok fd) (hrecv : c.recv = .data pending) :
    (0 ∈ recv_into buff (recv_bytes env.BUFSIZ pending) →
      tcp_receiver_loop env sd (c :: rest) 1 errmsg buff =
        Run.after [.sys_accept sd, .out_client c.peer, .sys_recv fd env.BUFSIZ,
                   .out_message (before_nul (recv_into buff (recv_bytes env.BUFSIZ pending)))]
          (tcp_receiver_loop env sd rest
            (if before_nul (recv_into buff (recv_bytes env.BUFSIZ pending)) = terminate
              then 0 else 1)
            errmsg (recv_into buff (recv_bytes env.BUFSIZ pending)))) ∧
    (0 ∉ recv_into buff (recv_bytes env.BUFSIZ pending) →
      tcp_receiver_loop env sd (c :: rest) 1 errmsg buff =
        { exit := .undefined, errmsg := errmsg,
          trace := [.sys_accept sd, .out_client c.peer, .sys_recv fd env.BUFSIZ] }) :=
  loop_turn env sd c rest errmsg buff fd pending hacc hrecv

/-- Witness of `turn_prints_and_compares_buffer_string`: the single byte `t`
arrives while `buff` holds `xerminate` and a NUL; the buffer then reads
`terminate` and the loop stops. -/
theorem turn_prints_and_compares_buffer_string_witness :
    (0 : Nat) ∈ recv_into ([120] ++ terminate.tail ++ [0])
      (recv_bytes (linux_env 3 []).BUFSIZ [116]) ∧
    tcp_receiver_loop (linux_env 3 []) 3 [local_conn 5 [116]] 1 ""
        ([120] ++ terminate.tail ++ [0]) =
      Run.after [.sys_accept 3, .out_client "127.0.0.1", .sys_recv 5 8192,
                 .out_message (before_nul (recv_into ([120] ++ terminate.tail ++ [0])
                   (recv_bytes (linux_env 3 []).BUFSIZ [116])))]
        (tcp_receiver_loop (linux_env 3 []) 3 []
          (if before_nul (recv_into ([120] ++ terminate.tail ++ [0])
              (recv_bytes (linux_env 3 []).BUFSIZ [116])) = terminate then 0 else 1)
          "" (recv_into ([120] ++ terminate.tail ++ [0])
            (recv_bytes (linux_env 3 []).BUFSIZ [116]))) :=
  ⟨by decide,
    (turn_prints_and_compares_buffer_string (linux_env 3 []) 3 (local_conn 5 [116]) [] ""
      ([120] ++ terminate.tail ++ [0]) 5 [116] rfl rfl).1 (by decide)⟩

/-- After any number of connections that were serviced without stopping, a
connection that delivers `terminate`, a NUL byte and anything after them
makes `tcp_receiver` return `0`; `tcp_server` then returns `0`, closing the
listening socket as its last step when its descriptor is not 0, and `main`
returns `0`. -/
theorem terminate_with_nul_ends_the_program (env : Env) (overflow : Int → Int)
    (prog port : String) (sd fd : Nat) (pre rest : List Conn) (c : Conn) (more : List Nat)
    (hsize : 10 ≤ env.BUFSIZ) (hs : env.socket = .ok sd) (hb : env.bind = .ok)
    (hl : env.listen = .ok) (hconns : env.conns = pre ++ c :: rest)
    (hpre : ∀ x ∈ pre, serviced_without_stop env.BUFSIZ x = true)
    (hacc : c.accept = .ok fd) (hrecv : c.recv = .data (terminate ++ 0 :: more)) :
    (∀ errmsg, (tcp_receiver env sd errmsg).exit = .returned 0) ∧
    (∀ info errmsg, (tcp_server env info errmsg).exit = .returned 0 ∧
      (sd ≠ 0 → (tcp_server env info errmsg).trace.getLast? = some (.sys_close sd))) ∧
    (main env overflow [prog, port]).exit = .returned 0 ∧
    (sd ≠ 0 → (main env overflow [prog, port]).trace.getLast? = some (.sys_close sd)) := by
  have hrecvr : ∀ errmsg, (tcp_receiver env sd errmsg).exit = .returned 0 := by
    intro errmsg
    obtain ⟨evs, buff2, h⟩ := loop_after_serviced env sd pre hpre (c :: rest) errmsg env.buff0
    have hstop := loop_stops_on_terminate_nul env sd c rest errmsg buff2 fd more hsize hacc hrecv
    unfold tcp_receiver
    rw [hconns, h, hstop]
    rfl
  have hserv : ∀ info errmsg, (tcp_server env info errmsg).exit = .returned 0 ∧
      (sd ≠ 0 → (tcp_server env info errmsg).trace.getLast? = some (.sys_close sd)) := by
    intro info errmsg
    have h := tcp_server_after_setup env info errmsg sd hs hb hl 0 (hrecvr errmsg)
    rw [h]
    refine ⟨rfl, ?_⟩
    intro hsd
    have hif : (if (sd : Int) ≠ 0 then [Event.sys_close sd] else []) =
        [Event.sys_close sd] := by simp [hsd]
    rw [hif]
    exact List.getLast?_concat _
  have hmain := (main_two_arguments env overflow prog port _ rfl).2
    (hserv { sv_port := to_ushort (atoi overflow port) } env.errmsg0).1
  refine ⟨hrecvr, hserv, ?_, ?_⟩
  · rw [hmain]
  · intro hsd
    rw [hmain]
    exact (hserv { sv_port := to_ushort (atoi overflow port) } env.errmsg0).2 hsd

/-- Witness of `terminate_with_nul_ends_the_program`: `hello` and a NUL, then
`terminate` and a NUL. -/
theorem terminate_with_nul_ends_the_program_witness :
    (main (linux_env 3 [local_conn 4 (hello ++ [0]), local_conn 5 (terminate ++ 0 :: [])])
      id ["server", "9090"]).exit = .returned 0 :=
  (terminate_with_nul_ends_the_program
    (linux_env 3 [local_conn 4 (hello ++ [0]), local_conn 5 (terminate ++ 0 :: [])]) id
    "server" "9090" 3 5 [local_conn 4 (hello ++ [0])] [] (local_conn 5 (terminate ++ 0 :: []))
    [] (by decide) rfl rfl rfl rfl (by decide) rfl rfl).2.2.1

/-- When exactly the 9 bytes `terminate` are received, the byte of `buff`
behind them (index 9, left from before) decides: a NUL there ends the loop,
another byte is printed after `terminate` with what follows it up to the next
NUL, and the loop goes on. -/
theorem exact_terminate_depends_on_tenth_byte (env : Env) (sd : Int) (c : Conn)
    (rest : List Conn) (errmsg : String) (buff : List Nat) (fd : Nat) (b : Nat)
    (tl : List Nat) (hsize : 9 ≤ env.BUFSIZ) (hacc : c.accept = .ok fd)
    (hrecv : c.recv = .data terminate) (hbuff : buff.drop 9 = b :: tl) :
    (b = 0 →
      tcp_receiver_loop env sd (c :: rest) 1 errmsg buff =
        { exit := .returned 0, errmsg := errmsg,
          trace := [.sys_accept sd, .out_client c.peer, .sys_recv fd env.BUFSIZ,
                    .out_message terminate] }) ∧
    (b ≠ 0 → 0 ∈ tl →
      tcp_receiver_loop env sd (c :: rest) 1 errmsg buff =
        Run.after [.sys_accept sd, .out_client c.peer, .sys_recv fd env.BUFSIZ,
                   .out_message (terminate ++ b :: before_nul tl)]
          (tcp_receiver_loop env sd rest 1 errmsg (terminate ++ b :: tl))) := by
  have hgot : recv_bytes env.BUFSIZ terminate = terminate := by
    unfold recv_bytes
    exact List.take_of_length_le (by simpa [terminate] using hsize)
  have hinto : recv_into buff (recv_bytes env.BUFSIZ terminate) = terminate ++ b :: tl := by
    rw [hgot]
    unfold recv_into
    rw [show terminate.length = 9 from rfl, hbuff]
  have hturn := (loop_turn env sd c rest errmsg buff fd terminate hacc hrecv).1
  rw [hinto] at hturn
  constructor
  · intro hb
    subst hb
    have h := hturn (by simp)
    have htext : before_nul (terminate ++ 0 :: tl) = terminate := by
      simp [before_nul, terminate]
    rw [htext, if_pos rfl, loop_flag_zero] at h
    rw [h]
    rfl
  · intro hb hnul
    have h := hturn (by simp [hnul])
    have htext : before_nul (terminate ++ b :: tl) = terminate ++ b :: before_nul tl := by
      simp [before_nul, terminate, List.takeWhile_cons, hb]
    have hne : terminate ++ b :: before_nul tl ≠ terminate := by
      simp [terminate]
    rw [htext, if_neg hne] at h
    exact h

/-- Witness of `exact_terminate_depends_on_tenth_byte`: `buff` holds
`hello world!` and a NUL, so the byte behind `terminate` is `l`. -/
theorem exact_terminate_depends_on_tenth_byte_witness :
    9 ≤ (linux_env 3 []).BUFSIZ ∧
    (hello_world ++ [0]).drop 9 = 108 :: [100, 33, 0] ∧
    tcp_receiver_loop (linux_env 3 []) 3 [local_conn 5 terminate] 1 "" (hello_world ++ [0]) =
      Run.after [.sys_accept 3, .out_client "127.0.0.1", .sys_recv 5 8192,
                 .out_message (terminate ++ 108 :: before_nul [100, 33, 0])]
        (tcp_receiver_loop (linux_env 3 []) 3 [] 1 "" (terminate ++ 108 :: [100, 33, 0])) :=
  ⟨by decide, by decide,
    (exact_terminate_depends_on_tenth_byte (linux_env 3 []) 3 (local_conn 5 terminate) [] ""
      (hello_world ++ [0]) 5 108 [100, 33, 0] (by decide) rfl rfl (by decide)).2
      (by decide) (by decide)⟩

/-- A turn in which `recv` delivers no byte leaves `buff` as it was: the
`message:` line shows the C string `buff` already held, and the loop stops or
goes on according to that string. -/
theorem empty_receive_repeats_buffer (env : Env) (sd : Int) (c : Conn)
    (rest : List Conn) (errmsg : String) (buff : List Nat) (fd : Nat)
    (hacc : c.accept = .ok fd) (hrecv : c.recv = .data []) (hnul : 0 ∈ buff) :
    tcp_receiver_loop env sd (c :: rest) 1 errmsg buff =
      Run.after [.sys_accept sd, .out_client c.peer, .sys_recv fd env.BUFSIZ,
                 .out_message (before_nul buff)]
        (tcp_receiver_loop env sd rest (if before_nul buff = terminate then 0 else 1)
          errmsg buff) := by
  have hinto : recv_into buff (recv_bytes env.BUFSIZ []) = buff := by
    simp [recv_into, recv_bytes]
  have h := (loop_turn env sd c rest errmsg buff fd [] hacc hrecv).1
  rw [hinto] at h
  exact h hnul

/-- Witness of `empty_receive_repeats_buffer`: `buff` holds `hello`. -/
theorem empty_receive_repeats_buffer_witness :
    (0 : Nat) ∈ hello ++ [0] ∧
    tcp_receiver_loop (linux_env 3 []) 3 [local_conn 5 []] 1 "" (hello ++ [0]) =
      Run.after [.sys_accept 3, .out_client "127.0.0.1", .sys_recv 5 8192,
                 .out_message (before_nul (hello ++ [0]))]
        (tcp_receiver_loop (linux_env 3 []) 3 []
          (if before_nul (hello ++ [0]) = terminate then 0 else 1) "" (hello ++ [0])) :=
  ⟨by decide,
    empty_receive_repeats_buffer (linux_env 3 []) 3 (local_conn 5 []) [] "" (hello ++ [0]) 5
      rfl rfl (by decide)⟩

/-- A failing `accept` or `recv` ends the loop at once with `-1`: `errmsg`
gets `(line:47) ` or `(line:57) ` followed by the error text, nothing is
accepted or read after it, no `message:` line is printed for the turn and the
loop does not close the listening socket. -/
theorem accept_or_recv_failure_is_fatal (env : Env) (sd : Int) (c : Conn)
    (rest : List Conn) (errmsg : String) (buff : List Nat) :
    (∀ e, c.accept = .fail e →
      tcp_receiver_loop env sd (c :: rest) 1 errmsg buff =
        { exit := .returned (-1), errmsg := "(line:47) " ++ env.strerror e,
          trace := [.sys_accept sd] }) ∧
    (∀ fd e, c.accept = .ok fd → c.recv = .fail e →
      tcp_receiver_loop env sd (c :: rest) 1 errmsg buff =
        { exit := .returned (-1), errmsg := "(line:57) " ++ env.strerror e,
          trace := [.sys_accept sd, .out_client c.peer, .sys_recv fd env.BUFSIZ] }) :=
  loop_failure env sd c rest errmsg buff

/-- Witness of `accept_or_recv_failure_is_fatal`: the peer resets the
connection before `recv`. -/
theorem accept_or_recv_failure_is_fatal_witness :
    tcp_receiver_loop (linux_env 3 []) 3
        [{ accept := .ok 4, peer := "10.0.0.7", recv := .fail 104 }, local_conn 5 hello] 1 ""
        (hello ++ [0]) =
      { exit := .returned (-1), errmsg := "(line:57) Connection reset by peer",
        trace := [.sys_accept 3, .out_client "10.0.0.7", .sys_recv 4 8192] } :=
  (accept_or_recv_failure_is_fatal (linux_env 3 []) 3
    { accept := .ok 4, peer := "10.0.0.7", recv := .fail 104 } [local_conn 5 hello] ""
    (hello ++ [0])).2 4 104 rfl rfl

/-- After any number of connections that were serviced without stopping, a
failing `accept` (line 47) or a failing `recv` (line 57) makes `tcp_receiver`
return `-1` with `(line:47) ` or `(line:57) ` and the error text in `errmsg`;
`tcp_server` then returns `-1`, closing the listening socket as its last step
when its descriptor is not 0, and `main` prints `Error: `, that text and a
newline last and returns `-1`. -/
theorem failure_in_loop_ends_the_program (env : Env) (overflow : Int → Int)
    (prog port : String) (sd : Nat) (pre rest : List Conn) (c : Conn) (e : Nat)
    (text : String)
    (hs : env.socket = .ok sd) (hb : env.bind = .ok)
    (hl : env.listen = .ok) (hconns : env.conns = pre ++ c :: rest)
    (hpre : ∀ x ∈ pre, serviced_without_stop env.BUFSIZ x = true)
    (hfail : (c.accept = .fail e ∧ text = "(line:47) " ++ env.strerror e) ∨
      (∃ fd, c.accept = .ok fd ∧ c.recv = .fail e ∧
        text = "(line:57) " ++ env.strerror e)) :
    (∀ errmsg, (tcp_receiver env sd errmsg).exit = .returned (-1) ∧
      (tcp_receiver env sd errmsg).errmsg = text) ∧
    (∀ info errmsg, (tcp_server env info errmsg).exit = .returned (-1) ∧
      (tcp_server env info errmsg).errmsg = text ∧
      (sd ≠ 0 → (tcp_server env info errmsg).trace.getLast? = some (.sys_close sd))) ∧
    (main env overflow [prog, port]).exit = .returned (-1) ∧
    (main env overflow [prog, port]).trace.getLast? =
      some (.err_line ("Error: " ++ text ++ "\n")) := by
  have hrecvr : ∀ errmsg, (tcp_receiver env sd errmsg).exit = .returned (-1) ∧
      (tcp_receiver env sd errmsg).errmsg = text := by
    intro errmsg
    obtain ⟨evs, buff2, h⟩ := loop_after_serviced env sd pre hpre (c :: rest) errmsg env.buff0
    unfold tcp_receiver
    rw [hconns, h]
    rcases hfail with ⟨hacc, htext⟩ | ⟨fd, hacc, hrecv, htext⟩
    · rw [(loop_failure env sd c rest errmsg buff2).1 e hacc, htext]
      exact ⟨rfl, rfl⟩
    · rw [(loop_failure env sd c rest errmsg buff2).2 fd e hacc hrecv, htext]
      exact ⟨rfl, rfl⟩
  have hserv : ∀ info errmsg, (tcp_server env info errmsg).exit = .returned (-1) ∧
      (tcp_server env info errmsg).errmsg = text ∧
      (sd ≠ 0 → (tcp_server env info errmsg).trace.getLast? = some (.sys_close sd)) := by
    intro info errmsg
    have h := tcp_server_after_setup env info errmsg sd hs hb hl (-1) (hrecvr errmsg).1
    rw [h]
    refine ⟨rfl, (hrecvr errmsg).2, ?_⟩
    intro hsd
    have hif : (if (sd : Int) ≠ 0 then [Event.sys_close sd] else []) =
        [Event.sys_close sd] := by simp [hsd]
    rw [hif]
    exact List.getLast?_concat _
  have hx := hserv { sv_port := to_ushort (atoi overflow port) } env.errmsg0
  have hmain := (main_two_arguments env overflow prog port _ rfl).1 (-1) hx.1 (by decide)
  refine ⟨hrecvr, hserv, ?_, ?_⟩
  · rw [hmain]
  · rw [hmain, hx.2.1]
    exact List.getLast?_concat _

/-- Witness of `failure_in_loop_ends_the_program`: `hello` and a NUL on a
first connection, then `accept` fails for lack of descriptors. -/
theorem failure_in_loop_ends_the_program_witness :
    (main (linux_env 3 [local_conn 4 (hello ++ [0]),
        { accept := .fail 24, peer := "", recv := .data [] }])
      id ["server", "9090"]).exit = .returned (-1) ∧
    (main (linux_env 3 [local_conn 4 (hello ++ [0]),
        { accept := .fail 24, peer := "", recv := .data [] }])
      id ["server", "9090"]).trace.getLast? =
      some (.err_line ("Error: " ++ "(line:47) Too many open files" ++ "\n")) :=
  (failure_in_loop_ends_the_program
    (linux_env 3 [local_conn 4 (hello ++ [0]),
      { accept := .fail 24, peer := "", recv := .data [] }]) id
    "server" "9090" 3 [local_conn 4 (hello ++ [0])] []
    { accept := .fail 24, peer := "", recv := .data [] } 24 "(line:47) Too many open files"
    rfl rfl rfl rfl (by decide) (Or.inl ⟨rfl, rfl⟩)).2.2

/-- When `socket` returned a descriptor other than 0 and `tcp_server`
returns, it has called `close` on that descriptor exactly once, as its last
step. -/
theorem tcp_server_closes_nonzero_descriptor_once (env : Env) (info : sv_info_t)
    (errmsg : String) (sd : Nat) (rc : Int) (hs : env.socket = .ok sd) (hsd : sd ≠ 0)
    (hret : (tcp_server env info errmsg).exit = .returned rc) :
    (tcp_server env info errmsg).trace.count (.sys_close sd) = 1 ∧
    (tcp_server env info errmsg).trace.getLast? = some (.sys_close sd) := by
  have hsd0 : ¬ ((sd : Int) < 0) := by omega
  cases hb : env.bind with
  | fail e =>
    simp [tcp_server, hs, hb, FdResult.rc, SysResult.rc, close_exit, hsd0, hsd, List.count_cons]
  | ok =>
    cases hl : env.listen with
    | fail e =>
      simp [tcp_server, hs, hb, hl, FdResult.rc, SysResult.rc, close_exit, hsd0, hsd,
        List.count_cons]
    | ok =>
      cases hx : (tcp_receiver env sd errmsg).exit with
      | returned r =>
        have h := tcp_server_after_setup env info errmsg sd hs hb hl r hx
        have hc : List.count (Event.sys_close sd) (tcp_receiver env sd errmsg).trace = 0 :=
          List.count_eq_zero.mpr (tcp_receiver_never_closes env sd sd errmsg)
        have hif : (if (sd : Int) ≠ 0 then [Event.sys_close sd] else []) =
            [Event.sys_close sd] := by simp [hsd]
        rw [h, hif]
        refine ⟨by simp [List.count_cons, List.count_append, hc], ?_⟩
        exact List.getLast?_concat _
      | blocked =>
        simp [tcp_server, hs, hb, hl, FdResult.rc, SysResult.rc, hsd0, hx, Run.after] at hret
      | undefined =>
        simp [tcp_server, hs, hb, hl, FdResult.rc, SysResult.rc, hsd0, hx, Run.after] at hret

/-- Witness of `tcp_server_closes_nonzero_descriptor_once`: descriptor 3, one
client that sends `terminate` and a NUL. -/
theorem tcp_server_closes_nonzero_descriptor_once_witness :
    (linux_env 3 [local_conn 4 (terminate ++ [0])]).socket = .ok 3 ∧ (3 : Nat) ≠ 0 ∧
    (tcp_server (linux_env 3 [local_conn 4 (terminate ++ [0])]) { sv_port := 9090 } "").exit =
      .returned 0 ∧
    (tcp_server (linux_env 3 [local_conn 4 (terminate ++ [0])])
      { sv_port := 9090 } "").trace.count (.sys_close 3) = 1 :=
  ⟨rfl, by decide, by decide,
    (tcp_server_closes_nonzero_descriptor_once (linux_env 3 [local_conn 4 (terminate ++ [0])])
      { sv_port := 9090 } "" 3 0 rfl (by decide) (by decide)).1⟩

/-- For every number `n` that is an `int`, written in decimal as `argv[1]`
(with a leading `-` when negative), `atoi` reads `n` back and `initialize`
stores `n mod 65536` as the port. -/
theorem decimal_port_text_is_stored_mod_65536 (bufsiz : Nat) (overflow : Int → Int)
    (prog : String)
    (info : sv_info_t) (errmsg : String) (n : Nat) :
    ((n : Int) ≤ INT_MAX →
      atoi overflow (toString n) = (n : Int) ∧
      (initialize_sv bufsiz overflow 2 [prog, toString n] info errmsg).info.sv_port = n % 65536) ∧
    (INT_MIN ≤ -(n : Int) →
      atoi overflow ("-" ++ toString n) = -(n : Int) ∧
      ((initialize_sv bufsiz overflow 2 [prog, "-" ++ toString n] info errmsg).info.sv_port : Int) =
        (-(n : Int)) % 65536) := by
  constructor
  · intro h
    have ha : atoi overflow (toString n) = (n : Int) := by
      have hlo : INT_MIN ≤ (n : Int) := by unfold INT_MIN; omega
      simp only [atoi, leading_decimal_toString, hlo, h, and_self, if_true]
    refine ⟨ha, ?_⟩
    simp only [initialize_sv, ne_eq, not_true_eq_false, if_false, List.get?, ha, to_ushort]
    omega
  · intro h
    have ha : atoi overflow ("-" ++ toString n) = -(n : Int) := by
      have hhi : -(n : Int) ≤ INT_MAX := by unfold INT_MAX; omega
      simp only [atoi, leading_decimal_minus_toString, hhi, h, and_self, if_true]
    refine ⟨ha, ?_⟩
    simp only [initialize_sv, ne_eq, not_true_eq_false, if_false, List.get?, ha, to_ushort]
    exact Int.toNat_of_nonneg (Int.emod_nonneg _ (by decide))

/-- Witness of `decimal_port_text_is_stored_mod_65536`: the number 70000. -/
theorem decimal_port_text_is_stored_mod_65536_witness :
    ((70000 : Nat) : Int) ≤ INT_MAX ∧
    (initialize_sv 8192 id 2 ["server", toString 70000] { sv_port := 0 } "").info.sv_port =
      70000 % 65536 :=
  ⟨by decide,
    ((decimal_port_text_is_stored_mod_65536 8192 id "server" { sv_port := 0 } "" 70000).1
      (by decide)).2⟩

/-- A connection that delivers no byte right after a connection that was
serviced without stopping the loop: the `message:` line of the earlier
connection is printed a second time, the loop does not stop and goes on to
the next `accept`. -/
theorem empty_receive_after_a_message_repeats_it (env : Env) (sd : Int) (c1 c2 : Conn)
    (rest : List Conn) (errmsg : String) (buff : List Nat) (fd1 fd2 : Nat)
    (pending : List Nat) (hacc1 : c1.accept = .ok fd1) (hrecv1 : c1.recv = .data pending)
    (hacc2 : c2.accept = .ok fd2) (hrecv2 : c2.recv = .data [])
    (hnul : 0 ∈ recv_into buff (recv_bytes env.BUFSIZ pending))
    (hgo : before_nul (recv_into buff (recv_bytes env.BUFSIZ pending)) ≠ terminate) :
    tcp_receiver_loop env sd (c1 :: c2 :: rest) 1 errmsg buff =
      Run.after
        [.sys_accept sd, .out_client c1.peer, .sys_recv fd1 env.BUFSIZ,
         .out_message (before_nul (recv_into buff (recv_bytes env.BUFSIZ pending))),
         .sys_accept sd, .out_client c2.peer, .sys_recv fd2 env.BUFSIZ,
         .out_message (before_nul (recv_into buff (recv_bytes env.BUFSIZ pending)))]
        (tcp_receiver_loop env sd rest 1 errmsg
          (recv_into buff (recv_bytes env.BUFSIZ pending))) ∧
    (tcp_receiver_loop env sd rest 1 errmsg
        (recv_into buff (recv_bytes env.BUFSIZ pending))).trace.head? =
      some (.sys_accept sd) := by
  have h1 := (loop_turn env sd c1 (c2 :: rest) errmsg buff fd1 pending hacc1 hrecv1).1 hnul
  have hinto : recv_into (recv_into buff (recv_bytes env.BUFSIZ pending))
      (recv_bytes env.BUFSIZ []) = recv_into buff (recv_bytes env.BUFSIZ pending) := by
    simp [recv_into, recv_bytes]
  have h2 := (loop_turn env sd c2 rest errmsg
    (recv_into buff (recv_bytes env.BUFSIZ pending)) fd2 [] hacc2 hrecv2).1
  rw [hinto] at h2
  have h2 := h2 hnul
  rw [if_neg hgo] at h1 h2
  rw [h1, h2]
  exact ⟨by simp [Run.after], loop_starts_with_accept env sd rest errmsg _⟩

/-- Witness of `empty_receive_after_a_message_repeats_it`: `hello` and a NUL,
then a connection without data. -/
theorem empty_receive_after_a_message_repeats_it_witness :
    (0 : Nat) ∈ recv_into [7, 7, 7, 7, 7, 7, 7, 7]
      (recv_bytes (linux_env 3 []).BUFSIZ (hello ++ [0])) ∧
    before_nul (recv_into [7, 7, 7, 7, 7, 7, 7, 7]
      (recv_bytes (linux_env 3 []).BUFSIZ (hello ++ [0]))) ≠ terminate ∧
    (tcp_receiver_loop (linux_env 3 []) 3
        [local_conn 4 (hello ++ [0]), local_conn 5 []] 1 "" [7, 7, 7, 7, 7, 7, 7, 7]).trace =
      [.sys_accept 3, .out_client "127.0.0.1", .sys_recv 4 8192, .out_message hello,
       .sys_accept 3, .out_client "127.0.0.1", .sys_recv 5 8192, .out_message hello,
       .sys_accept 3] :=
  ⟨by decide, by decide, by
    rw [(empty_receive_after_a_message_repeats_it (linux_env 3 []) 3
      (local_conn 4 (hello ++ [0])) (local_conn 5 []) [] "" [7, 7, 7, 7, 7, 7, 7, 7] 4 5
      (hello ++ [0]) rfl rfl rfl rfl (by decide) (by decide)).1]
    decide⟩

/-- The array `buff` keeps its size: `recv` is asked for `BUFSIZ` bytes, the
size of `buff`, and stores no byte behind its end. -/
theorem recv_stays_inside_buff (env : Env) (buff pending : List Nat)
    (hsize : buff.length = env.BUFSIZ) :
    (recv_bytes env.BUFSIZ pending).length ≤ env.BUFSIZ ∧
    (recv_into buff (recv_bytes env.BUFSIZ pending)).length = env.BUFSIZ := by
  have hle : (recv_bytes env.BUFSIZ pending).length ≤ env.BUFSIZ := by
    simp [recv_bytes, List.length_take]
  refine ⟨hle, ?_⟩
  simp only [recv_into, List.length_append, List.length_drop, hsize]
  omega

/-- Witness of `recv_stays_inside_buff`: 8203 bytes offered to a buffer of
8192 bytes. -/
theorem recv_stays_inside_buff_witness :
    (linux_env 3 []).buff0.length = (linux_env 3 []).BUFSIZ ∧
    (recv_into (linux_env 3 []).buff0
      (recv_bytes (linux_env 3 []).BUFSIZ long_message)).length = (linux_env 3 []).BUFSIZ :=
  ⟨List.length_replicate 8192 0,
    (recv_stays_inside_buff (linux_env 3 []) (linux_env 3 []).buff0 long_message
      (List.length_replicate 8192 0)).2⟩

/-- With an argument count other than 2 and a program name of at most
`BUFSIZ - 16` bytes, `initialize` returns `-1`, writes `Usage: `, `argv[0]`,
` <port>` and a newline into `errmsg` and leaves the server information as it
was; `main` then prints `Error: `, that text and a newline and returns `-1`
without any system call.  With two arguments `initialize` returns `0`. -/
theorem usage_error_when_program_name_fits (env : Env) (overflow : Int → Int) (argc : Int)
    (prog : String) (rest : List String) (info : sv_info_t) (errmsg : String)
    (hargc : argc ≠ 2) (hrest : rest.length ≠ 1)
    (hfit : prog.utf8ByteSize + 16 ≤ env.BUFSIZ) :
    initialize_sv env.BUFSIZ overflow argc (prog :: rest) info errmsg =
      { exit := .returned (-1), info := info, errmsg := "Usage: " ++ prog ++ " <port>\n" } ∧
    main env overflow (prog :: rest) =
      { exit := .returned (-1), errmsg := "Usage: " ++ prog ++ " <port>\n",
        trace := [.err_line ("Error: " ++ ("Usage: " ++ prog ++ " <port>\n") ++ "\n")] } ∧
    (∀ port : String,
      (initialize_sv env.BUFSIZ overflow 2 [prog, port] info errmsg).exit = .returned 0) := by
  have h := usage_path env overflow prog rest
  refine ⟨(h.1 env.BUFSIZ argc info errmsg hargc).1 hfit, (h.2 hrest).1 hfit, ?_⟩
  intro port
  simp [initialize_sv]

/-- Witness of `usage_error_when_program_name_fits`: the program `server`
started without any argument, and with three arguments. -/
theorem usage_error_when_program_name_fits_witness :
    "server".utf8ByteSize + 16 ≤ (linux_env 3 []).BUFSIZ ∧
    main (linux_env 3 []) id ["server"] =
      { exit := .returned (-1), errmsg := "Usage: server <port>\n",
        trace := [.err_line "Error: Usage: server <port>\n\n"] } ∧
    main (linux_env 3 []) id ["server", "80", "81", "82"] =
      { exit := .returned (-1), errmsg := "Usage: server <port>\n",
        trace := [.err_line "Error: Usage: server <port>\n\n"] } :=
  ⟨by decide,
    (usage_error_when_program_name_fits (linux_env 3 []) id 1 "server" [] { sv_port := 0 } ""
      (by decide) (by decide) (by decide)).2.1,
    (usage_error_when_program_name_fits (linux_env 3 []) id 4 "server" ["80", "81", "82"]
      { sv_port := 0 } "" (by decide) (by decide) (by decide)).2.1⟩

end SocketServer
